import Mathlib

/-!
# Verification of the history-arrow timeline engine

A shallow embedding of the timeline layout / navigation code of the
`history_arrow_2` repository, together with proofs and refutations of the
specification's claims.

Modelling conventions:
* JavaScript numbers are modelled as real numbers (`ℝ`) in the functions that
  use `Math.log10` / `Math.pow` (the scale transform and the view-state
  mutators), and as exact rationals (`ℚ`) in the functions that only use
  field arithmetic and comparisons (clustering, date conversion, lane layout).
  Statements about "equality up to floating-point tolerance" become exact
  equalities in the real-number model; refutations exhibit gaps far larger
  than any floating-point tolerance.
* Each embedded function keeps the name of the JavaScript function it is
  translated from (`src/client/src/utils/dateUtils.js`,
  `src/client/src/utils/clusterUtils.js`,
  `src/client/src/components/LogarithmicMinimap.jsx`,
  `src/client/src/components/HistoryArrow.jsx`).
-/

namespace HistoryArrow

noncomputable section RealScale

open Real

/-- `Math.log10` on positive reals. -/
def log10 (x : ℝ) : ℝ := Real.logb 10 x

/-- `Math.pow(10, x)`. -/
def pow10 (x : ℝ) : ℝ := (10 : ℝ) ^ x

/-- Source: `DEFAULT_MIN_YEARS = 0.001` in `dateUtils.js`. -/
def DEFAULT_MIN_YEARS : ℝ := 0.001

/-- Source: `DEFAULT_MAX_YEARS = 5e9` in `dateUtils.js`. -/
def DEFAULT_MAX_YEARS : ℝ := 5e9

/-- Source: `yearToLogPosition(yearsAgo, minYearsAgo, maxYearsAgo)` in
`dateUtils.js` lines 193-204.  Clamps at the window bounds, then interpolates
`log10` linearly, inverted so the present sits at 100. -/
def yearToLogPosition (yearsAgo minYearsAgo maxYearsAgo : ℝ) : ℝ :=
  if yearsAgo ≤ minYearsAgo then 100
  else if maxYearsAgo ≤ yearsAgo then 0
  else
    let logMin := log10 (max minYearsAgo 1)
    let logMax := log10 maxYearsAgo
    let logYear := log10 yearsAgo
    100 - (logYear - logMin) / (logMax - logMin) * 100

/-- Source: `yearToLinearPosition` in `dateUtils.js` lines 217-229.
Deliberately unclamped. -/
def yearToLinearPosition (yearsAgo minYearsAgo maxYearsAgo : ℝ) : ℝ :=
  100 - (yearsAgo - minYearsAgo) / (maxYearsAgo - minYearsAgo) * 100

/-- Source: `linearPositionToYear` in `dateUtils.js` lines 231-234. -/
def linearPositionToYear (position minYearsAgo maxYearsAgo : ℝ) : ℝ :=
  minYearsAgo + (100 - position) / 100 * (maxYearsAgo - minYearsAgo)

/-- Source: `logPositionToYear` in `dateUtils.js` lines 244-254.  Clamps the
position into `[0, 100]` first. -/
def logPositionToYear (position minYearsAgo maxYearsAgo : ℝ) : ℝ :=
  let clampedPosition := max 0 (min 100 position)
  let logMin := log10 (max minYearsAgo 1)
  let logMax := log10 maxYearsAgo
  pow10 (logMax - clampedPosition / 100 * (logMax - logMin))

/-- The view window kept in the `HistoryArrow` component state:
`viewStart` is closer to the present (smaller years-ago), `viewEnd` further
in the past (larger years-ago). -/
structure ViewWindow where
  viewStart : ℝ
  viewEnd : ℝ

/-- The window invariant claimed by the spec:
`globalMin ≤ start < end ≤ globalMax`. -/
def validWindow (w : ViewWindow) : Prop :=
  DEFAULT_MIN_YEARS ≤ w.viewStart ∧ w.viewStart < w.viewEnd ∧
    w.viewEnd ≤ DEFAULT_MAX_YEARS

/-- Source: `handleViewChange` in `HistoryArrow.jsx` lines 170-173.  The
set-window operation: floors the start at the global minimum and ceilings the
end at the global maximum, nothing else. -/
def handleViewChange (newStart newEnd : ℝ) : ViewWindow :=
  ⟨max DEFAULT_MIN_YEARS newStart, min DEFAULT_MAX_YEARS newEnd⟩

/-- Source: `handlePanLeft` in `LogarithmicMinimap.jsx` lines 119-141
(followed by the `onViewChange` clamp).  Pans into the past by 25% of the
log-span, absorbing overflow at the global maximum on the trailing bound. -/
def handlePanLeft (w : ViewWindow) : ViewWindow :=
  let logStart := log10 w.viewStart
  let logEnd := log10 w.viewEnd
  let panAmount := (logEnd - logStart) * 0.25
  let newLogStart := logStart + panAmount
  let newLogEnd := logEnd + panAmount
  if DEFAULT_MAX_YEARS < pow10 newLogEnd then
    handleViewChange (pow10 (newLogStart - (newLogEnd - log10 DEFAULT_MAX_YEARS)))
      DEFAULT_MAX_YEARS
  else
    handleViewChange (pow10 newLogStart) (pow10 newLogEnd)

/-- Source: `handlePanRight` in `LogarithmicMinimap.jsx` lines 144-166
(followed by the `onViewChange` clamp).  Pans toward the present by 25% of the
log-span, absorbing underflow at the global minimum on the trailing bound. -/
def handlePanRight (w : ViewWindow) : ViewWindow :=
  let logStart := log10 w.viewStart
  let logEnd := log10 w.viewEnd
  let panAmount := (logEnd - logStart) * 0.25
  let newLogStart := logStart - panAmount
  let newLogEnd := logEnd - panAmount
  if pow10 newLogStart < DEFAULT_MIN_YEARS then
    handleViewChange DEFAULT_MIN_YEARS
      (pow10 (newLogEnd + (log10 DEFAULT_MIN_YEARS - newLogStart)))
  else
    handleViewChange (pow10 newLogStart) (pow10 newLogEnd)

/-- Source: `handleZoomIn` in `LogarithmicMinimap.jsx` lines 169-182
(followed by the `onViewChange` clamp).  Shrinks the log-span by factor 0.7
(floored at half an order of magnitude), recentered on the window's
log-midpoint — the handler takes no anchor argument. -/
def handleZoomIn (w : ViewWindow) : ViewWindow :=
  let logStart := log10 w.viewStart
  let logEnd := log10 w.viewEnd
  let newSpan := max 0.5 ((logEnd - logStart) * 0.7)
  let center := (logStart + logEnd) / 2
  handleViewChange (max DEFAULT_MIN_YEARS (pow10 (center - newSpan / 2)))
    (min DEFAULT_MAX_YEARS (pow10 (center + newSpan / 2)))

/-- Source: `handleZoomOut` in `LogarithmicMinimap.jsx` lines 185-198
(followed by the `onViewChange` clamp).  Grows the log-span by factor 1.4
(capped at 10), recentered on the window's log-midpoint. -/
def handleZoomOut (w : ViewWindow) : ViewWindow :=
  let logStart := log10 w.viewStart
  let logEnd := log10 w.viewEnd
  let newSpan := min 10 ((logEnd - logStart) * 1.4)
  let center := (logStart + logEnd) / 2
  handleViewChange (max DEFAULT_MIN_YEARS (pow10 (center - newSpan / 2)))
    (min DEFAULT_MAX_YEARS (pow10 (center + newSpan / 2)))

/-- Source: `handleMinimapClick` in `LogarithmicMinimap.jsx` lines 96-116
(followed by the `onViewChange` clamp).  Re-centers the window, preserving its
log-span, on the clicked time value. -/
def handleMinimapClick (w : ViewWindow) (clickPercent : ℝ) : ViewWindow :=
  let clickedYears := logPositionToYear clickPercent DEFAULT_MIN_YEARS DEFAULT_MAX_YEARS
  let halfSpan := |log10 w.viewEnd - log10 w.viewStart| / 2
  let logClicked := log10 clickedYears
  handleViewChange (max DEFAULT_MIN_YEARS (pow10 (logClicked - halfSpan)))
    (min DEFAULT_MAX_YEARS (pow10 (logClicked + halfSpan)))

/-- The three viewfinder drag modes of the minimap. -/
inductive DragType where
  | move
  | left
  | right

/-- Source: `handleMouseMove` in `LogarithmicMinimap.jsx` lines 56-87
(followed by the `onViewChange` clamp).  `w` is the window captured at drag
start (`initialView`); `deltaPercent` the pointer movement in percent of the
container width. -/
def handleMouseMove (w : ViewWindow) (dragType : DragType) (deltaPercent : ℝ) :
    ViewWindow :=
  let initialLeftPos := yearToLogPosition w.viewEnd DEFAULT_MIN_YEARS DEFAULT_MAX_YEARS
  let initialRightPos := yearToLogPosition w.viewStart DEFAULT_MIN_YEARS DEFAULT_MAX_YEARS
  let p : ℝ × ℝ :=
    match dragType with
    | DragType.move =>
      let newLeftPos := max 0 (min (100 - (initialRightPos - initialLeftPos))
        (initialLeftPos + deltaPercent))
      (newLeftPos, newLeftPos + (initialRightPos - initialLeftPos))
    | DragType.left =>
      (max 0 (min (initialRightPos - 1) (initialLeftPos + deltaPercent)),
        initialRightPos)
    | DragType.right =>
      (initialLeftPos,
        max (initialLeftPos + 1) (min 100 (initialRightPos + deltaPercent)))
  handleViewChange (logPositionToYear p.2 DEFAULT_MIN_YEARS DEFAULT_MAX_YEARS)
    (logPositionToYear p.1 DEFAULT_MIN_YEARS DEFAULT_MAX_YEARS)

/-- Source: `centerOnEvent` in `HistoryArrow.jsx` lines 42-49.  Sets the
window to `[globalMin, min(2·yearsAgo, globalMax)]`. -/
def centerOnEvent (yearsAgo : ℝ) : ViewWindow :=
  ⟨DEFAULT_MIN_YEARS, min (yearsAgo * 2) DEFAULT_MAX_YEARS⟩

/-- Source: `handleReset` in `HistoryArrow.jsx` lines 183-186, and the initial
component state (lines 37-38): `[DEFAULT_MIN_YEARS, CURRENT_YEAR]`. -/
def handleReset (currentYear : ℝ) : ViewWindow :=
  ⟨DEFAULT_MIN_YEARS, currentYear⟩

/-- Source: `getClusterZoomBounds(cluster, padding = 1.5)` in
`clusterUtils.js` lines 144-173, as a function of the cluster's
`minYearsAgo` / `maxYearsAgo` fields (the only cluster data it reads). -/
def getClusterZoomBounds (minYearsAgo maxYearsAgo padding : ℝ) : ViewWindow :=
  let logMin := log10 minYearsAgo
  let logMax := log10 maxYearsAgo
  let logSpan := logMax - logMin
  let paddedLogMin := logMin - logSpan * (padding - 1)
  let paddedLogMax := logMax + logSpan * (padding - 1)
  let minSpan : ℝ := 0.5
  let actualSpan := paddedLogMax - paddedLogMin
  let q : ℝ × ℝ :=
    if actualSpan < minSpan then
      let center := (paddedLogMin + paddedLogMax) / 2
      (center - minSpan / 2, center + minSpan / 2)
    else (paddedLogMin, paddedLogMax)
  ⟨max DEFAULT_MIN_YEARS (pow10 q.1), min DEFAULT_MAX_YEARS (pow10 q.2)⟩

/-- Source: `handleClusterClick` in `HistoryArrow.jsx` lines 175-180: zooms to
the cluster bounds, then clamps both bounds to the global range. -/
def handleClusterClick (minYearsAgo maxYearsAgo : ℝ) : ViewWindow :=
  let b := getClusterZoomBounds minYearsAgo maxYearsAgo 1.5
  handleViewChange b.viewStart b.viewEnd

/-- One user gesture on the view state, as dispatched by the components.
Side conditions record what the UI can actually deliver: a click lands inside
the container (`0 ≤ p ≤ 100`), a cluster's members are events visible in the
current window (so its min/max years-ago lie inside the window), a
center-on-event target has years-ago ≥ 1 (calendar conversion floors at 1,
and the schema stores astronomical years as positive integers). -/
inductive Step (currentYear : ℝ) : ViewWindow → ViewWindow → Prop where
  | panLeft (w : ViewWindow) : Step currentYear w (handlePanLeft w)
  | panRight (w : ViewWindow) : Step currentYear w (handlePanRight w)
  | zoomIn (w : ViewWindow) : Step currentYear w (handleZoomIn w)
  | zoomOut (w : ViewWindow) : Step currentYear w (handleZoomOut w)
  | click (w : ViewWindow) (p : ℝ) (hp : 0 ≤ p) (hp' : p ≤ 100) :
      Step currentYear w (handleMinimapClick w p)
  | drag (w : ViewWindow) (t : DragType) (d : ℝ) :
      Step currentYear w (handleMouseMove w t d)
  | clusterZoom (w : ViewWindow) (mn mx : ℝ) (h1 : w.viewStart ≤ mn)
      (h2 : mn ≤ mx) (h3 : mx ≤ w.viewEnd) :
      Step currentYear w (handleClusterClick mn mx)
  | center (w : ViewWindow) (y : ℝ) (hy : 1 ≤ y) :
      Step currentYear w (centerOnEvent y)
  | reset (w : ViewWindow) : Step currentYear w (handleReset currentYear)

/-- Windows reachable from the default window by any gesture sequence. -/
def Reachable (currentYear : ℝ) (w : ViewWindow) : Prop :=
  Relation.ReflTransGen (Step currentYear) (handleReset currentYear) w

/-- Same gestures with the viewfinder drags removed. -/
inductive StepNoDrag (currentYear : ℝ) : ViewWindow → ViewWindow → Prop where
  | panLeft (w : ViewWindow) : StepNoDrag currentYear w (handlePanLeft w)
  | panRight (w : ViewWindow) : StepNoDrag currentYear w (handlePanRight w)
  | zoomIn (w : ViewWindow) : StepNoDrag currentYear w (handleZoomIn w)
  | zoomOut (w : ViewWindow) : StepNoDrag currentYear w (handleZoomOut w)
  | click (w : ViewWindow) (p : ℝ) (hp : 0 ≤ p) (hp' : p ≤ 100) :
      StepNoDrag currentYear w (handleMinimapClick w p)
  | clusterZoom (w : ViewWindow) (mn mx : ℝ) (h1 : w.viewStart ≤ mn)
      (h2 : mn ≤ mx) (h3 : mx ≤ w.viewEnd) :
      StepNoDrag currentYear w (handleClusterClick mn mx)
  | center (w : ViewWindow) (y : ℝ) (hy : 1 ≤ y) :
      StepNoDrag currentYear w (centerOnEvent y)
  | reset (w : ViewWindow) : StepNoDrag currentYear w (handleReset currentYear)

/-- Windows reachable from the default window without viewfinder drags. -/
def ReachableNoDrag (currentYear : ℝ) (w : ViewWindow) : Prop :=
  Relation.ReflTransGen (StepNoDrag currentYear) (handleReset currentYear) w

end RealScale

section ClusterUtils

/-- A positioned point event, as consumed by `detectClusters`: the fields of
the `positionedEvents` objects of `HistoryArrow.jsx` that the clustering code
reads. -/
structure PosEvent where
  id : ℕ
  startPos : ℚ
  yearsAgo : ℚ
  priority : ℚ
deriving DecidableEq, Inhabited

/-- The cluster objects built by `createClusterObject` in
`clusterUtils.js` lines 50-73. -/
structure Cluster where
  memberIds : List ℕ
  events : List PosEvent
  position : ℚ
  count : ℕ
  minYearsAgo : ℚ
  maxYearsAgo : ℚ
  maxPriority : ℚ
deriving DecidableEq

/-- `Math.min(...)` over a list (only applied to nonempty lists in source). -/
def listMin : List ℚ → ℚ
  | [] => 0
  | x :: xs => xs.foldl min x

/-- `Math.max(...)` over a list (only applied to nonempty lists in source). -/
def listMax : List ℚ → ℚ
  | [] => 0
  | x :: xs => xs.foldl max x

/-- Source: `createClusterObject(events)` in `clusterUtils.js` lines 50-73. -/
def createClusterObject (events : List PosEvent) : Cluster :=
  { memberIds := events.map (·.id)
    events := events
    position := (events.map (·.startPos)).sum / events.length
    count := events.length
    minYearsAgo := listMin (events.map (·.yearsAgo))
    maxYearsAgo := listMax (events.map (·.yearsAgo))
    maxPriority := listMax (events.map (·.priority)) }

/-- The comparison used by `sortedEvents` in `detectClusters`:
`(a, b) => a.startPos - b.startPos`, i.e. ascending `startPos`. -/
def byStartPos (a b : PosEvent) : Prop := a.startPos ≤ b.startPos

instance : DecidableRel byStartPos := fun a b =>
  inferInstanceAs (Decidable (a.startPos ≤ b.startPos))

instance : IsTotal PosEvent byStartPos :=
  ⟨fun a b => le_total a.startPos b.startPos⟩

instance : IsTrans PosEvent byStartPos :=
  ⟨fun _ _ _ hab hbc => le_trans hab hbc⟩

/-- The grouping loop of `detectClusters` (`clusterUtils.js` lines 19-45).
`cur` holds the current group in reverse order (its head is `prevEvent`,
the last event pushed); groups of size 1 are dropped. -/
def clusterGroups (threshold : ℚ) : List PosEvent → List PosEvent → List (List PosEvent)
  | cur, [] => if 1 < cur.length then [cur.reverse] else []
  | cur, e :: rest =>
    if |e.startPos - cur.headI.startPos| ≤ threshold then
      clusterGroups threshold (e :: cur) rest
    else
      (if 1 < cur.length then [cur.reverse] else []) ++ clusterGroups threshold [e] rest

/-- Source: `detectClusters(events, threshold = 3)` in `clusterUtils.js`
lines 13-47. -/
def detectClusters (events : List PosEvent) (threshold : ℚ) : List Cluster :=
  match List.insertionSort byStartPos events with
  | [] => []
  | e :: rest => (clusterGroups threshold [e] rest).map createClusterObject

/-- Modelled from the spec: the "smallest gap between any two distinct
years-ago values among cluster members" that §4.5 says
`getClusterZoomBounds` is driven by (the source computes no such quantity;
this definition exists to state claim C5 as written). -/
def specMinDistinctGap (values : List ℚ) : ℚ :=
  listMin ((values.product values).filterMap
    (fun p => if p.1 = p.2 then none else some |p.1 - p.2|))

end ClusterUtils

section DateUtils

/-- `365.25 * 24 * 60 * 60 * 1000`, the mean-year millisecond count used by
`dateToYearsAgo`. -/
def msPerYear : ℚ := 365.25 * 24 * 60 * 60 * 1000

/-- Source: `dateToYearsAgo(date)` in `dateUtils.js` lines 396-402, as a
function of the two timestamps involved (`now.getTime()` and
`eventDate.getTime()`, in milliseconds).  `Math.round` rounds half toward
positive infinity, exactly `⌊x + 1/2⌋`, which is Mathlib's `round`. -/
def dateToYearsAgo (nowMs dateMs : ℚ) : ℚ :=
  max 1 (round ((nowMs - dateMs) / msPerYear) : ℤ)

/-- The two date representations of an event record. -/
inductive DateKind where
  | date
  | astronomical
deriving DecidableEq

/-- The event fields read by `eventToYearsAgo`. -/
structure EventRec where
  dateKind : DateKind
  startDateMs : ℚ
  astronomicalStartYear : ℚ
deriving DecidableEq

/-- Source: `eventToYearsAgo(event)` in `dateUtils.js` lines 421-426:
astronomical events use the stored years-ago value directly, calendar
events go through `dateToYearsAgo`. -/
def eventToYearsAgo (nowMs : ℚ) (event : EventRec) : ℚ :=
  match event.dateKind with
  | DateKind.astronomical => event.astronomicalStartYear
  | DateKind.date => dateToYearsAgo nowMs event.startDateMs

end DateUtils

section LaneLayout

/-- Modelled from the spec: a positioned item fed to the LaneLayout
algorithm of §4.4 — a marker with its estimated label footprint, as a
`[left, right]` extent in percent.  The algorithm itself is not under
`src/` (only `EventMarker.jsx` consumes the resulting lane fields). -/
structure LaneItem where
  id : ℕ
  left : ℚ
  right : ℚ
deriving DecidableEq

/-- Modelled from the spec (§4.4 step 1): sort order — left edge ascending,
ties broken by descending width, then by id. -/
def laneOrder (a b : LaneItem) : Prop :=
  a.left < b.left ∨ (a.left = b.left ∧
    (b.right - b.left < a.right - a.left ∨
      (a.right - a.left = b.right - b.left ∧ a.id ≤ b.id)))

instance : DecidableRel laneOrder := fun a b => by
  unfold laneOrder; infer_instance

/-- First lane (by index) whose right edge is at most `bound`. -/
def findLane (bound : ℚ) : List ℚ → Option ℕ
  | [] => none
  | edge :: edges =>
    if edge ≤ bound then some 0 else (findLane bound edges).map Nat.succ

/-- Modelled from the spec (§4.4 step 2): walk the items in order, keeping
each lane's right edge; place each item in the first lane whose right edge
is `≤ item.left - overlapPadding`, else open a new lane. -/
def assignLanesGo (overlapPadding : ℚ) : List LaneItem → List ℚ → List (LaneItem × ℕ)
  | [], _ => []
  | item :: rest, lanes =>
    match findLane (item.left - overlapPadding) lanes with
    | some k => (item, k) :: assignLanesGo overlapPadding rest (lanes.set k item.right)
    | none => (item, lanes.length) :: assignLanesGo overlapPadding rest (lanes ++ [item.right])

/-- Modelled from the spec (§4.4 steps 1-2): the greedy interval-packing
lane assignment. -/
def assignLanes (overlapPadding : ℚ) (items : List LaneItem) : List (LaneItem × ℕ) :=
  assignLanesGo overlapPadding (List.insertionSort laneOrder items) []

/-- How much two extents overlap (negative when they are disjoint). -/
def extentOverlap (a b : LaneItem) : ℚ :=
  min a.right b.right - max a.left b.left

end LaneLayout

/-! ## Basic facts about the logarithmic scale -/

section RealLemmas

open Real

lemma one_lt_ten : (1 : ℝ) < 10 := by norm_num

lemma ten_pos : (0 : ℝ) < 10 := by norm_num

lemma ten_ne_one : (10 : ℝ) ≠ 1 := by norm_num

lemma pow10_pos (x : ℝ) : 0 < pow10 x := Real.rpow_pos_of_pos ten_pos x

lemma pow10_lt_pow10_iff {x y : ℝ} : pow10 x < pow10 y ↔ x < y :=
  Real.rpow_lt_rpow_left_iff one_lt_ten

lemma pow10_le_pow10_iff {x y : ℝ} : pow10 x ≤ pow10 y ↔ x ≤ y :=
  Real.rpow_le_rpow_left_iff one_lt_ten

lemma log10_pow10 (x : ℝ) : log10 (pow10 x) = x :=
  Real.logb_rpow ten_pos ten_ne_one

lemma pow10_log10 {x : ℝ} (hx : 0 < x) : pow10 (log10 x) = x :=
  Real.rpow_logb ten_pos ten_ne_one hx

lemma log10_lt_log10 {x y : ℝ} (hx : 0 < x) (hxy : x < y) : log10 x < log10 y :=
  Real.logb_lt_logb one_lt_ten hx hxy

lemma log10_le_log10 {x y : ℝ} (hx : 0 < x) (hxy : x ≤ y) : log10 x ≤ log10 y :=
  Real.logb_le_logb_of_le one_lt_ten hx hxy

lemma log10_one : log10 1 = 0 := Real.logb_one

lemma pow10_zero : pow10 0 = 1 := Real.rpow_zero 10

lemma pow10_natCast (n : ℕ) : pow10 n = (10 : ℝ) ^ n := Real.rpow_natCast 10 n

lemma log10_min_years : log10 DEFAULT_MIN_YEARS = -3 := by
  have h : DEFAULT_MIN_YEARS = pow10 (-3) := by
    rw [DEFAULT_MIN_YEARS, pow10, show ((-3 : ℝ)) = ((-3 : ℤ) : ℝ) by norm_num,
      Real.rpow_intCast]
    norm_num
  rw [h, log10_pow10]

lemma min_years_pos : 0 < DEFAULT_MIN_YEARS := by norm_num [DEFAULT_MIN_YEARS]

lemma min_years_lt_one : DEFAULT_MIN_YEARS < 1 := by norm_num [DEFAULT_MIN_YEARS]

lemma min_lt_max_years : DEFAULT_MIN_YEARS < DEFAULT_MAX_YEARS := by
  norm_num [DEFAULT_MIN_YEARS, DEFAULT_MAX_YEARS]

lemma max_years_pos : 0 < DEFAULT_MAX_YEARS := by norm_num [DEFAULT_MAX_YEARS]

lemma nine_lt_log10_max : (9 : ℝ) < log10 DEFAULT_MAX_YEARS := by
  rw [log10, Real.lt_logb_iff_rpow_lt one_lt_ten max_years_pos,
    show ((9 : ℝ)) = ((9 : ℕ) : ℝ) by norm_num, Real.rpow_natCast]
  norm_num [DEFAULT_MAX_YEARS]

lemma log10_max_lt_ten : log10 DEFAULT_MAX_YEARS < 10 := by
  rw [log10, Real.logb_lt_iff_lt_rpow one_lt_ten max_years_pos,
    show ((10 : ℝ)) = ((10 : ℕ) : ℝ) by norm_num, Real.rpow_natCast]
  norm_num [DEFAULT_MAX_YEARS]

lemma pow10_log10_max : pow10 (log10 DEFAULT_MAX_YEARS) = DEFAULT_MAX_YEARS :=
  pow10_log10 max_years_pos

lemma pow10_log10_min : pow10 (log10 DEFAULT_MIN_YEARS) = DEFAULT_MIN_YEARS :=
  pow10_log10 min_years_pos

end RealLemmas

/-! ## Round-trip of the scale transforms (claim C2) -/

section RoundTrip

/-- The linear transform round-trips exactly for every year, on every
non-degenerate window. -/
lemma linear_round_trip (y s e : ℝ) (h : s < e) :
    linearPositionToYear (yearToLinearPosition y s e) s e = y := by
  have hne : e - s ≠ 0 := sub_ne_zero.mpr h.ne'
  unfold linearPositionToYear yearToLinearPosition
  field_simp
  ring

/-- The logarithmic transform round-trips exactly for years inside the
window's clamp range `[max(start,1), end]`. -/
lemma log_round_trip (y s e : ℝ) (h1 : max s 1 ≤ y) (h2 : y ≤ e)
    (h3 : max s 1 < e) : logPositionToYear (yearToLogPosition y s e) s e = y := by
  have hy1 : (1 : ℝ) ≤ y := le_trans (le_max_right s 1) h1
  have hy0 : (0 : ℝ) < y := lt_of_lt_of_le one_pos hy1
  have hm0 : (0 : ℝ) < max s 1 := lt_of_lt_of_le one_pos (le_max_right s 1)
  have he0 : (0 : ℝ) < e := lt_trans hm0 h3
  have hlog_lt : log10 (max s 1) < log10 e := log10_lt_log10 hm0 h3
  have hden : log10 e - log10 (max s 1) ≠ 0 := sub_ne_zero.mpr hlog_lt.ne'
  by_cases hys : y ≤ s
  · -- y is at (or below) the near bound: position clamps to 100 and comes
    -- back as max(start, 1); the hypotheses force y = s ≥ 1.
    have hsy : s ≤ y := le_trans (le_max_left s 1) h1
    have hyeq : y = s := le_antisymm hys hsy
    have hs1 : (1 : ℝ) ≤ s := hyeq ▸ hy1
    have hmax : max s 1 = s := max_eq_left hs1
    rw [yearToLogPosition, if_pos hys, logPositionToYear]
    simp only [hmax]
    rw [show max (0:ℝ) (min 100 100) = 100 by norm_num]
    rw [show (100 : ℝ) / 100 * (log10 e - log10 s) = log10 e - log10 s by ring]
    rw [show log10 e - (log10 e - log10 s) = log10 s by ring]
    rw [pow10_log10 (hyeq ▸ hy0), hyeq]
  · have hsy : s < y := lt_of_not_le hys
    by_cases hey : e ≤ y
    · -- y is at the far bound: position clamps to 0 and comes back as e.
      have hyeq : y = e := le_antisymm h2 hey
      rw [yearToLogPosition, if_neg hys, if_pos hey, logPositionToYear]
      rw [show max (0:ℝ) (min 100 0) = 0 by norm_num]
      rw [show (0 : ℝ) / 100 * (log10 e - log10 (max s 1)) = 0 by ring, sub_zero,
        pow10_log10 he0, hyeq]
    · -- y is strictly inside the window.
      have hye : y < e := lt_of_not_le hey
      have hmy : log10 (max s 1) ≤ log10 y := log10_le_log10 hm0 h1
      have hyl : log10 y < log10 e := log10_lt_log10 hy0 hye
      rw [yearToLogPosition, if_neg hys, if_neg (not_le.mpr hye)]
      set lMin := log10 (max s 1)
      set lMax := log10 e
      set r := (log10 y - lMin) / (lMax - lMin) with hr
      have hr0 : 0 ≤ r := div_nonneg (sub_nonneg.mpr hmy) (sub_nonneg.mpr hlog_lt.le)
      have hr1 : r < 1 := by
        rw [hr, div_lt_one (sub_pos.mpr hlog_lt)]
        linarith
      have hpos : (0 : ℝ) < 100 - r * 100 := by nlinarith
      have hle : 100 - r * 100 ≤ 100 := by nlinarith
      rw [logPositionToYear]
      simp only
      have hle' : 100 - (log10 y - lMin) / (lMax - lMin) * 100 ≤ 100 := by
        rw [← hr]; exact hle
      have hpos' : 0 ≤ 100 - (log10 y - lMin) / (lMax - lMin) * 100 := by
        rw [← hr]; exact hpos.le
      rw [show max 0 (min 100 (100 - (log10 y - lMin) / (lMax - lMin) * 100)) =
          100 - r * 100 by
        rw [min_eq_right hle', max_eq_right hpos', hr]]
      have hkey : lMax - (100 - r * 100) / 100 * (lMax - lMin) = log10 y := by
        have : (100 - r * 100) / 100 = 1 - r := by ring
        rw [this, hr]
        field_simp
      rw [hkey, pow10_log10 hy0]

end RoundTrip

/-! ## Further scale facts used by the zoom and pan analysis -/

section MoreScale

lemma min_years_eq_pow10 : DEFAULT_MIN_YEARS = pow10 (-3) := by
  rw [← log10_min_years, pow10_log10 min_years_pos]

lemma pow10_one : pow10 1 = 10 := Real.rpow_one 10

lemma log10_ten : log10 10 = 1 := by rw [← pow10_one, log10_pow10]

lemma pow10_nine : pow10 9 = 1000000000 := by
  rw [show (9 : ℝ) = ((9 : ℕ) : ℝ) by norm_num, pow10_natCast]; norm_num

lemma pow10_two : pow10 2 = 100 := by
  rw [show (2 : ℝ) = ((2 : ℕ) : ℝ) by norm_num, pow10_natCast]; norm_num

lemma pow10_three : pow10 3 = 1000 := by
  rw [show (3 : ℝ) = ((3 : ℕ) : ℝ) by norm_num, pow10_natCast]; norm_num

lemma one_le_pow10 {x : ℝ} (hx : 0 ≤ x) : 1 ≤ pow10 x := by
  rw [← pow10_zero, pow10_le_pow10_iff]; exact hx

lemma min_years_le_pow10 {x : ℝ} (hx : -3 ≤ x) : DEFAULT_MIN_YEARS ≤ pow10 x := by
  rw [min_years_eq_pow10, pow10_le_pow10_iff]; exact hx

lemma pow10_le_max_years {x : ℝ} (hx : x ≤ log10 DEFAULT_MAX_YEARS) :
    pow10 x ≤ DEFAULT_MAX_YEARS := by
  rw [← pow10_log10_max, pow10_le_pow10_iff]; exact hx

lemma point_two_le_log10_five : (0.2 : ℝ) ≤ Real.logb 10 5 := by
  rw [Real.le_logb_iff_rpow_le one_lt_ten (by norm_num : (0:ℝ) < 5)]
  have h5 : ((10 : ℝ) ^ (0.2 : ℝ)) ^ (5 : ℕ) ≤ (5 : ℝ) ^ (5 : ℕ) := by
    rw [← Real.rpow_natCast ((10 : ℝ) ^ (0.2 : ℝ)) 5,
      ← Real.rpow_mul (by norm_num : (0:ℝ) ≤ 10)]
    norm_num
  exact le_of_pow_le_pow_left₀ (by norm_num) (by norm_num) h5

lemma ninePointTwo_le_log10_max : (9.2 : ℝ) ≤ log10 DEFAULT_MAX_YEARS := by
  have hmax : DEFAULT_MAX_YEARS = 5 * pow10 9 := by
    rw [pow10_nine]; norm_num [DEFAULT_MAX_YEARS]
  rw [log10, hmax, Real.logb_mul (by norm_num) (ne_of_gt (pow10_pos 9))]
  have h9 : Real.logb 10 (pow10 9) = 9 := log10_pow10 9
  rw [h9]
  have := point_two_le_log10_five
  linarith

/-- `handleViewChange` of an already-clamped pair is a no-op. -/
lemma handleViewChange_of_clamped {a b : ℝ} (ha : DEFAULT_MIN_YEARS ≤ a)
    (hb : b ≤ DEFAULT_MAX_YEARS) : handleViewChange a b = ⟨a, b⟩ := by
  rw [handleViewChange, max_eq_right ha, min_eq_right hb]

/-- Unfolded form of `yearToLogPosition`. -/
lemma yearToLogPosition_def (y s e : ℝ) : yearToLogPosition y s e =
    if y ≤ s then 100 else if e ≤ y then 0 else
      100 - (log10 y - log10 (max s 1)) / (log10 e - log10 (max s 1)) * 100 := rfl

/-- Unfolded form of `logPositionToYear`. -/
lemma logPositionToYear_def (p s e : ℝ) : logPositionToYear p s e =
    pow10 (log10 e - max 0 (min 100 p) / 100 * (log10 e - log10 (max s 1))) := rfl

/-- Unfolded form of `handleZoomIn`. -/
lemma handleZoomIn_def (w : ViewWindow) : handleZoomIn w =
    handleViewChange
      (max DEFAULT_MIN_YEARS (pow10 ((log10 w.viewStart + log10 w.viewEnd) / 2 -
        max 0.5 ((log10 w.viewEnd - log10 w.viewStart) * 0.7) / 2)))
      (min DEFAULT_MAX_YEARS (pow10 ((log10 w.viewStart + log10 w.viewEnd) / 2 +
        max 0.5 ((log10 w.viewEnd - log10 w.viewStart) * 0.7) / 2))) := rfl

/-- Unfolded form of `handlePanLeft`. -/
lemma handlePanLeft_def (w : ViewWindow) : handlePanLeft w =
    if DEFAULT_MAX_YEARS < pow10 (log10 w.viewEnd +
        (log10 w.viewEnd - log10 w.viewStart) * 0.25) then
      handleViewChange
        (pow10 (log10 w.viewStart + (log10 w.viewEnd - log10 w.viewStart) * 0.25 -
          (log10 w.viewEnd + (log10 w.viewEnd - log10 w.viewStart) * 0.25 -
            log10 DEFAULT_MAX_YEARS)))
        DEFAULT_MAX_YEARS
    else
      handleViewChange
        (pow10 (log10 w.viewStart + (log10 w.viewEnd - log10 w.viewStart) * 0.25))
        (pow10 (log10 w.viewEnd + (log10 w.viewEnd - log10 w.viewStart) * 0.25)) := rfl

/-- Unfolded form of `handlePanRight`. -/
lemma handlePanRight_def (w : ViewWindow) : handlePanRight w =
    if pow10 (log10 w.viewStart - (log10 w.viewEnd - log10 w.viewStart) * 0.25) <
        DEFAULT_MIN_YEARS then
      handleViewChange DEFAULT_MIN_YEARS
        (pow10 (log10 w.viewEnd - (log10 w.viewEnd - log10 w.viewStart) * 0.25 +
          (log10 DEFAULT_MIN_YEARS -
            (log10 w.viewStart - (log10 w.viewEnd - log10 w.viewStart) * 0.25))))
    else
      handleViewChange
        (pow10 (log10 w.viewStart - (log10 w.viewEnd - log10 w.viewStart) * 0.25))
        (pow10 (log10 w.viewEnd - (log10 w.viewEnd - log10 w.viewStart) * 0.25)) := rfl

/-- Unfolded form of `handleMinimapClick`. -/
lemma handleMinimapClick_def (w : ViewWindow) (p : ℝ) : handleMinimapClick w p =
    handleViewChange
      (max DEFAULT_MIN_YEARS
        (pow10 (log10 (logPositionToYear p DEFAULT_MIN_YEARS DEFAULT_MAX_YEARS) -
          |log10 w.viewEnd - log10 w.viewStart| / 2)))
      (min DEFAULT_MAX_YEARS
        (pow10 (log10 (logPositionToYear p DEFAULT_MIN_YEARS DEFAULT_MAX_YEARS) +
          |log10 w.viewEnd - log10 w.viewStart| / 2))) := rfl

/-- Unfolded form of `handleClusterClick`. -/
lemma handleClusterClick_def (mn mx : ℝ) : handleClusterClick mn mx =
    handleViewChange (getClusterZoomBounds mn mx 1.5).viewStart
      (getClusterZoomBounds mn mx 1.5).viewEnd := rfl

/-- Unfolded form of `handleMouseMove` for the `move` drag. -/
lemma handleMouseMove_move (w : ViewWindow) (d : ℝ) :
    handleMouseMove w DragType.move d =
      handleViewChange
        (logPositionToYear
          (max 0 (min (100 -
              (yearToLogPosition w.viewStart DEFAULT_MIN_YEARS DEFAULT_MAX_YEARS -
                yearToLogPosition w.viewEnd DEFAULT_MIN_YEARS DEFAULT_MAX_YEARS))
            (yearToLogPosition w.viewEnd DEFAULT_MIN_YEARS DEFAULT_MAX_YEARS + d)) +
            (yearToLogPosition w.viewStart DEFAULT_MIN_YEARS DEFAULT_MAX_YEARS -
              yearToLogPosition w.viewEnd DEFAULT_MIN_YEARS DEFAULT_MAX_YEARS))
          DEFAULT_MIN_YEARS DEFAULT_MAX_YEARS)
        (logPositionToYear
          (max 0 (min (100 -
              (yearToLogPosition w.viewStart DEFAULT_MIN_YEARS DEFAULT_MAX_YEARS -
                yearToLogPosition w.viewEnd DEFAULT_MIN_YEARS DEFAULT_MAX_YEARS))
            (yearToLogPosition w.viewEnd DEFAULT_MIN_YEARS DEFAULT_MAX_YEARS + d)))
          DEFAULT_MIN_YEARS DEFAULT_MAX_YEARS) := rfl

/-- `getClusterZoomBounds` with the if pushed to the outside. -/
lemma getClusterZoomBounds_eq (mn mx padding : ℝ) :
    getClusterZoomBounds mn mx padding =
      if (log10 mx + (log10 mx - log10 mn) * (padding - 1)) -
          (log10 mn - (log10 mx - log10 mn) * (padding - 1)) < 0.5 then
        ViewWindow.mk
          (max DEFAULT_MIN_YEARS (pow10 ((log10 mn + log10 mx) / 2 - 0.25)))
          (min DEFAULT_MAX_YEARS (pow10 ((log10 mn + log10 mx) / 2 + 0.25)))
      else
        ViewWindow.mk
          (max DEFAULT_MIN_YEARS
            (pow10 (log10 mn - (log10 mx - log10 mn) * (padding - 1))))
          (min DEFAULT_MAX_YEARS
            (pow10 (log10 mx + (log10 mx - log10 mn) * (padding - 1)))) := by
  show ViewWindow.mk
      (max DEFAULT_MIN_YEARS (pow10
        (if (log10 mx + (log10 mx - log10 mn) * (padding - 1)) -
            (log10 mn - (log10 mx - log10 mn) * (padding - 1)) < 0.5 then
          (((log10 mn - (log10 mx - log10 mn) * (padding - 1)) +
            (log10 mx + (log10 mx - log10 mn) * (padding - 1))) / 2 - 0.5 / 2,
            ((log10 mn - (log10 mx - log10 mn) * (padding - 1)) +
            (log10 mx + (log10 mx - log10 mn) * (padding - 1))) / 2 + 0.5 / 2)
        else ((log10 mn - (log10 mx - log10 mn) * (padding - 1)),
          (log10 mx + (log10 mx - log10 mn) * (padding - 1)))).1))
      (min DEFAULT_MAX_YEARS (pow10
        (if (log10 mx + (log10 mx - log10 mn) * (padding - 1)) -
            (log10 mn - (log10 mx - log10 mn) * (padding - 1)) < 0.5 then
          (((log10 mn - (log10 mx - log10 mn) * (padding - 1)) +
            (log10 mx + (log10 mx - log10 mn) * (padding - 1))) / 2 - 0.5 / 2,
            ((log10 mn - (log10 mx - log10 mn) * (padding - 1)) +
            (log10 mx + (log10 mx - log10 mn) * (padding - 1))) / 2 + 0.5 / 2)
        else ((log10 mn - (log10 mx - log10 mn) * (padding - 1)),
          (log10 mx + (log10 mx - log10 mn) * (padding - 1)))).2)) = _
  by_cases hc : (log10 mx + (log10 mx - log10 mn) * (padding - 1)) -
      (log10 mn - (log10 mx - log10 mn) * (padding - 1)) < 0.5
  · rw [if_pos hc, if_pos hc]
    have hctr : ((log10 mn - (log10 mx - log10 mn) * (padding - 1)) +
        (log10 mx + (log10 mx - log10 mn) * (padding - 1))) / 2 =
        (log10 mn + log10 mx) / 2 := by ring
    rw [show (0.5 : ℝ) / 2 = 0.25 by norm_num, hctr]
  · rw [if_neg hc, if_neg hc]

/-- Unfolded form of `handleZoomOut`. -/
lemma handleZoomOut_def (w : ViewWindow) : handleZoomOut w =
    handleViewChange
      (max DEFAULT_MIN_YEARS (pow10 ((log10 w.viewStart + log10 w.viewEnd) / 2 -
        min 10 ((log10 w.viewEnd - log10 w.viewStart) * 1.4) / 2)))
      (min DEFAULT_MAX_YEARS (pow10 ((log10 w.viewStart + log10 w.viewEnd) / 2 +
        min 10 ((log10 w.viewEnd - log10 w.viewStart) * 1.4) / 2))) := rfl

/-- The common clamped shape of both zoom handlers, when neither global
bound is hit. -/
lemma zoom_no_clamp (a b : ℝ) (ha : -3 ≤ a) (hb : b ≤ log10 DEFAULT_MAX_YEARS) :
    handleViewChange (max DEFAULT_MIN_YEARS (pow10 a))
      (min DEFAULT_MAX_YEARS (pow10 b)) = ⟨pow10 a, pow10 b⟩ := by
  have hA : max DEFAULT_MIN_YEARS (pow10 a) = pow10 a :=
    max_eq_right (min_years_le_pow10 ha)
  have hB : min DEFAULT_MAX_YEARS (pow10 b) = pow10 b :=
    min_eq_right (pow10_le_max_years hb)
  rw [hA, hB,
    handleViewChange_of_clamped (min_years_le_pow10 ha) (pow10_le_max_years hb)]

/-- The window's log-midpoint value maps to position 50 on any window with
`1 ≤ start < end`. -/
lemma yearToLogPosition_center (s e : ℝ) (h1 : 1 ≤ s) (h2 : s < e) :
    yearToLogPosition (pow10 ((log10 s + log10 e) / 2)) s e = 50 := by
  have hs0 : (0 : ℝ) < s := lt_of_lt_of_le one_pos h1
  have he0 : (0 : ℝ) < e := lt_trans hs0 h2
  have hlt : log10 s < log10 e := log10_lt_log10 hs0 h2
  have hsc : s < pow10 ((log10 s + log10 e) / 2) := by
    calc s = pow10 (log10 s) := (pow10_log10 hs0).symm
    _ < pow10 ((log10 s + log10 e) / 2) := pow10_lt_pow10_iff.mpr (by linarith)
  have hec : pow10 ((log10 s + log10 e) / 2) < e := by
    calc pow10 ((log10 s + log10 e) / 2) < pow10 (log10 e) :=
      pow10_lt_pow10_iff.mpr (by linarith)
    _ = e := pow10_log10 he0
  rw [yearToLogPosition_def, if_neg (not_le.mpr hsc), if_neg (not_le.mpr hec),
    max_eq_left h1, log10_pow10]
  have hne : log10 e - log10 s ≠ 0 := sub_ne_zero.mpr hlt.ne'
  field_simp
  ring

end MoreScale

/-! ## Claim C2 — round-trip of the scale transforms -/

/-- C2 counterexample: with window `[10, 1000]` and `yearsAgo = 1` (inside
the claim's range `[1, DEFAULT_MAX_YEARS]`), the log round trip returns 10,
which differs from 1 by 9 — far beyond floating-point tolerance.  The claimed
round trip fails for years outside the window's clamp range. -/
theorem C2_counterexample :
    logPositionToYear (yearToLogPosition 1 10 1000) 10 1000 = 10 ∧
      (1 : ℝ) + 1 < 10 := by
  constructor
  · rw [yearToLogPosition_def, if_pos (by norm_num : (1:ℝ) ≤ 10), logPositionToYear_def]
    rw [show max (0:ℝ) (min 100 100) = 100 by norm_num,
      show max (10:ℝ) 1 = 10 by norm_num,
      show log10 1000 - (100:ℝ)/100 * (log10 1000 - log10 10) = log10 10 by ring,
      pow10_log10 (by norm_num : (0:ℝ) < 10)]
  · norm_num

/-- C2 (amended): the linear round trip is exact for every `yearsAgo` and
every non-degenerate window; the logarithmic round trip is exact for every
`yearsAgo` inside the window's clamp range `[max(start, 1), end]` (outside
that range `yearToLogPosition` clamps, so the round trip lands on the
corresponding bound instead). -/
theorem C2_round_trip :
    (∀ y s e : ℝ, max s 1 ≤ y → y ≤ e → max s 1 < e →
      logPositionToYear (yearToLogPosition y s e) s e = y) ∧
    (∀ y s e : ℝ, s < e →
      linearPositionToYear (yearToLinearPosition y s e) s e = y) :=
  ⟨log_round_trip, linear_round_trip⟩

/-- Witness for C2 at `yearsAgo = 10`, window `[1, 1000]` (log) and
`yearsAgo = 7`, window `[2, 5]` (linear). -/
theorem C2_round_trip_witness :
    (max (1:ℝ) 1 ≤ 10 ∧ (10:ℝ) ≤ 1000 ∧ max (1:ℝ) 1 < 1000 ∧
      logPositionToYear (yearToLogPosition 10 1 1000) 1 1000 = 10) ∧
    ((2:ℝ) < 5 ∧ linearPositionToYear (yearToLinearPosition 7 2 5) 2 5 = 7) :=
  ⟨⟨by norm_num, by norm_num, by norm_num,
      C2_round_trip.1 10 1 1000 (by norm_num) (by norm_num) (by norm_num)⟩,
    ⟨by norm_num, C2_round_trip.2 7 2 5 (by norm_num)⟩⟩

/-! ## Claim C1 — zoom anchoring -/

/-- C1 counterexample: the zoom handlers take no anchor argument.  On the
valid window `[1, 10^9]`, zooming in moves the screen position of the
years-ago value 10 from `100 - 100/9 ≈ 88.9` to `100` (it leaves the
window), a jump of more than 10 screen percent — no anchor years-ago value
other than the window's log-midpoint keeps its position. -/
theorem C1_counterexample :
    yearToLogPosition 10 (ViewWindow.mk 1 (pow10 9)).viewStart
        (ViewWindow.mk 1 (pow10 9)).viewEnd + 10 <
      yearToLogPosition 10 (handleZoomIn ⟨1, pow10 9⟩).viewStart
        (handleZoomIn ⟨1, pow10 9⟩).viewEnd := by
  have hzoom : handleZoomIn ⟨1, pow10 9⟩ = ⟨pow10 1.35, pow10 7.65⟩ := by
    rw [handleZoomIn_def]
    show handleViewChange
      (max DEFAULT_MIN_YEARS (pow10 ((log10 1 + log10 (pow10 9)) / 2 -
        max 0.5 ((log10 (pow10 9) - log10 1) * 0.7) / 2)))
      (min DEFAULT_MAX_YEARS (pow10 ((log10 1 + log10 (pow10 9)) / 2 +
        max 0.5 ((log10 (pow10 9) - log10 1) * 0.7) / 2))) = _
    rw [log10_one, log10_pow10,
      show max (0.5:ℝ) (((9:ℝ) - 0) * 0.7) = 6.3 by
        rw [max_eq_right] <;> norm_num,
      show ((0:ℝ) + 9) / 2 - 6.3 / 2 = 1.35 by norm_num,
      show ((0:ℝ) + 9) / 2 + 6.3 / 2 = 7.65 by norm_num]
    exact zoom_no_clamp 1.35 7.65 (by norm_num)
      (le_trans (by norm_num) ninePointTwo_le_log10_max)
  rw [hzoom]
  have hpre : yearToLogPosition 10 (ViewWindow.mk 1 (pow10 9)).viewStart
      (ViewWindow.mk 1 (pow10 9)).viewEnd = 100 - 1 / 9 * 100 := by
    have h10 : (10:ℝ) = pow10 1 := pow10_one.symm
    show yearToLogPosition 10 1 (pow10 9) = 100 - 1 / 9 * 100
    rw [yearToLogPosition_def, if_neg (by norm_num),
      if_neg (not_le.mpr (by rw [h10]; exact pow10_lt_pow10_iff.mpr (by norm_num)))]
    rw [show max (1:ℝ) 1 = 1 by norm_num, log10_one, log10_ten, log10_pow10]
    norm_num
  have hpost : yearToLogPosition 10 (ViewWindow.mk (pow10 1.35) (pow10 7.65)).viewStart
      (ViewWindow.mk (pow10 1.35) (pow10 7.65)).viewEnd = 100 := by
    show yearToLogPosition 10 (pow10 1.35) (pow10 7.65) = 100
    rw [yearToLogPosition_def, if_pos]
    show (10:ℝ) ≤ pow10 1.35
    rw [← pow10_one]
    exact pow10_le_pow10_iff.mpr (by norm_num)
  rw [hpre, hpost]
  norm_num

/-- C1 (amended): the zoom handlers are anchored at the window's log-space
center, not at an interaction point.  On a window with `1 ≤ start < end ≤
globalMax` whose log-span is at least the zoom-in floor 0.5, the years-ago
value at the log-midpoint maps to screen position 50 before the zoom and
after `handleZoomIn`; `handleZoomOut`, whenever neither global bound clamps,
preserves the window's log-midpoint exactly, and the midpoint's screen
position also stays 50 whenever the zoomed-out start remains at or above
one year — below one year `yearToLogPosition`'s internal `max(start, 1)`
floor distorts positions even though the log-midpoint is still held
fixed. -/
theorem C1_zoom_center_anchor (w : ViewWindow)
    (h1 : 1 ≤ w.viewStart) (h2 : w.viewStart < w.viewEnd)
    (h3 : w.viewEnd ≤ DEFAULT_MAX_YEARS)
    (hspan : 0.5 ≤ log10 w.viewEnd - log10 w.viewStart)
    (houtL : -3 ≤ (log10 w.viewStart + log10 w.viewEnd) / 2 -
      min 10 ((log10 w.viewEnd - log10 w.viewStart) * 1.4) / 2)
    (houtR : (log10 w.viewStart + log10 w.viewEnd) / 2 +
        min 10 ((log10 w.viewEnd - log10 w.viewStart) * 1.4) / 2 ≤
      log10 DEFAULT_MAX_YEARS) :
    yearToLogPosition (pow10 ((log10 w.viewStart + log10 w.viewEnd) / 2))
        w.viewStart w.viewEnd = 50 ∧
    yearToLogPosition (pow10 ((log10 w.viewStart + log10 w.viewEnd) / 2))
        (handleZoomIn w).viewStart (handleZoomIn w).viewEnd = 50 ∧
    (log10 (handleZoomOut w).viewStart + log10 (handleZoomOut w).viewEnd) / 2 =
      (log10 w.viewStart + log10 w.viewEnd) / 2 ∧
    (1 ≤ (handleZoomOut w).viewStart →
      yearToLogPosition (pow10 ((log10 w.viewStart + log10 w.viewEnd) / 2))
        (handleZoomOut w).viewStart (handleZoomOut w).viewEnd = 50) := by
  have hs0 : (0 : ℝ) < w.viewStart := lt_of_lt_of_le one_pos h1
  have he0 : (0 : ℝ) < w.viewEnd := lt_trans hs0 h2
  have hls : 0 ≤ log10 w.viewStart := by
    rw [← log10_one]; exact log10_le_log10 one_pos h1
  have hlt : log10 w.viewStart < log10 w.viewEnd := log10_lt_log10 hs0 h2
  have hle : log10 w.viewEnd ≤ log10 DEFAULT_MAX_YEARS := log10_le_log10 he0 h3
  -- zoom in: the new span is at most the old one, so no clamp engages.
  have hnsIn : max 0.5 ((log10 w.viewEnd - log10 w.viewStart) * 0.7) ≤
      log10 w.viewEnd - log10 w.viewStart := by
    rw [max_le_iff]; constructor <;> linarith
  have hnsInPos : 0 < max 0.5 ((log10 w.viewEnd - log10 w.viewStart) * 0.7) :=
    lt_of_lt_of_le (by norm_num) (le_max_left _ _)
  have hziL : 0 ≤ (log10 w.viewStart + log10 w.viewEnd) / 2 -
      max 0.5 ((log10 w.viewEnd - log10 w.viewStart) * 0.7) / 2 := by linarith
  have hziR : (log10 w.viewStart + log10 w.viewEnd) / 2 +
      max 0.5 ((log10 w.viewEnd - log10 w.viewStart) * 0.7) / 2 ≤
      log10 DEFAULT_MAX_YEARS := by linarith
  have hzi : handleZoomIn w =
      ⟨pow10 ((log10 w.viewStart + log10 w.viewEnd) / 2 -
          max 0.5 ((log10 w.viewEnd - log10 w.viewStart) * 0.7) / 2),
        pow10 ((log10 w.viewStart + log10 w.viewEnd) / 2 +
          max 0.5 ((log10 w.viewEnd - log10 w.viewStart) * 0.7) / 2)⟩ := by
    rw [handleZoomIn_def]
    exact zoom_no_clamp _ _ (le_trans (by norm_num) hziL) hziR
  -- zoom out: the hypotheses say exactly that no clamp engages.
  have hnsOutPos : 0 < min 10 ((log10 w.viewEnd - log10 w.viewStart) * 1.4) := by
    rw [lt_min_iff]; constructor
    · norm_num
    · nlinarith
  have hzo : handleZoomOut w =
      ⟨pow10 ((log10 w.viewStart + log10 w.viewEnd) / 2 -
          min 10 ((log10 w.viewEnd - log10 w.viewStart) * 1.4) / 2),
        pow10 ((log10 w.viewStart + log10 w.viewEnd) / 2 +
          min 10 ((log10 w.viewEnd - log10 w.viewStart) * 1.4) / 2)⟩ := by
    rw [handleZoomOut_def]
    exact zoom_no_clamp _ _ houtL houtR
  refine ⟨yearToLogPosition_center _ _ h1 h2, ?_, ?_, ?_⟩
  · rw [hzi]
    have hmid : ((log10 (pow10 ((log10 w.viewStart + log10 w.viewEnd) / 2 -
        max 0.5 ((log10 w.viewEnd - log10 w.viewStart) * 0.7) / 2)) +
        log10 (pow10 ((log10 w.viewStart + log10 w.viewEnd) / 2 +
        max 0.5 ((log10 w.viewEnd - log10 w.viewStart) * 0.7) / 2))) / 2) =
        (log10 w.viewStart + log10 w.viewEnd) / 2 := by
      rw [log10_pow10, log10_pow10]; ring
    have hcen := yearToLogPosition_center
      (pow10 ((log10 w.viewStart + log10 w.viewEnd) / 2 -
        max 0.5 ((log10 w.viewEnd - log10 w.viewStart) * 0.7) / 2))
      (pow10 ((log10 w.viewStart + log10 w.viewEnd) / 2 +
        max 0.5 ((log10 w.viewEnd - log10 w.viewStart) * 0.7) / 2))
      (one_le_pow10 hziL)
      (pow10_lt_pow10_iff.mpr (by linarith))
    rw [hmid] at hcen
    exact hcen
  · rw [hzo]
    have hmid : ((log10 (pow10 ((log10 w.viewStart + log10 w.viewEnd) / 2 -
        min 10 ((log10 w.viewEnd - log10 w.viewStart) * 1.4) / 2)) +
        log10 (pow10 ((log10 w.viewStart + log10 w.viewEnd) / 2 +
        min 10 ((log10 w.viewEnd - log10 w.viewStart) * 1.4) / 2))) / 2) =
        (log10 w.viewStart + log10 w.viewEnd) / 2 := by
      rw [log10_pow10, log10_pow10]; ring
    exact hmid
  · intro h0
    rw [hzo] at h0
    have h0' : 0 ≤ (log10 w.viewStart + log10 w.viewEnd) / 2 -
        min 10 ((log10 w.viewEnd - log10 w.viewStart) * 1.4) / 2 := by
      rw [← pow10_le_pow10_iff, pow10_zero]
      exact h0
    rw [hzo]
    have hmid : ((log10 (pow10 ((log10 w.viewStart + log10 w.viewEnd) / 2 -
        min 10 ((log10 w.viewEnd - log10 w.viewStart) * 1.4) / 2)) +
        log10 (pow10 ((log10 w.viewStart + log10 w.viewEnd) / 2 +
        min 10 ((log10 w.viewEnd - log10 w.viewStart) * 1.4) / 2))) / 2) =
        (log10 w.viewStart + log10 w.viewEnd) / 2 := by
      rw [log10_pow10, log10_pow10]; ring
    have hcen := yearToLogPosition_center
      (pow10 ((log10 w.viewStart + log10 w.viewEnd) / 2 -
        min 10 ((log10 w.viewEnd - log10 w.viewStart) * 1.4) / 2))
      (pow10 ((log10 w.viewStart + log10 w.viewEnd) / 2 +
        min 10 ((log10 w.viewEnd - log10 w.viewStart) * 1.4) / 2))
      (one_le_pow10 h0')
      (pow10_lt_pow10_iff.mpr (by linarith))
    rw [hmid] at hcen
    exact hcen

/-- Witness for C1 on the window `[10^2, 10^8]`. -/
theorem C1_zoom_center_anchor_witness :
    (1 : ℝ) ≤ (ViewWindow.mk (pow10 2) (pow10 8)).viewStart ∧
    (ViewWindow.mk (pow10 2) (pow10 8)).viewStart <
      (ViewWindow.mk (pow10 2) (pow10 8)).viewEnd ∧
    (ViewWindow.mk (pow10 2) (pow10 8)).viewEnd ≤ DEFAULT_MAX_YEARS ∧
    yearToLogPosition (pow10 ((log10 (pow10 2) + log10 (pow10 8)) / 2))
        (handleZoomIn ⟨pow10 2, pow10 8⟩).viewStart
        (handleZoomIn ⟨pow10 2, pow10 8⟩).viewEnd = 50 ∧
    (log10 (handleZoomOut ⟨pow10 2, pow10 8⟩).viewStart +
        log10 (handleZoomOut ⟨pow10 2, pow10 8⟩).viewEnd) / 2 =
      (log10 (pow10 2) + log10 (pow10 8)) / 2 ∧
    yearToLogPosition (pow10 ((log10 (pow10 2) + log10 (pow10 8)) / 2))
        (handleZoomOut ⟨pow10 2, pow10 8⟩).viewStart
        (handleZoomOut ⟨pow10 2, pow10 8⟩).viewEnd = 50 := by
  have h1 : (1 : ℝ) ≤ pow10 2 := one_le_pow10 (by norm_num)
  have h2 : pow10 2 < pow10 8 := pow10_lt_pow10_iff.mpr (by norm_num)
  have h3 : pow10 8 ≤ DEFAULT_MAX_YEARS :=
    pow10_le_max_years (le_trans (by norm_num) ninePointTwo_le_log10_max)
  have hspan : (0.5 : ℝ) ≤ log10 (pow10 8) - log10 (pow10 2) := by
    rw [log10_pow10, log10_pow10]; norm_num
  have houtL : (-3:ℝ) ≤ (log10 (pow10 2) + log10 (pow10 8)) / 2 -
      min 10 ((log10 (pow10 8) - log10 (pow10 2)) * 1.4) / 2 := by
    rw [log10_pow10, log10_pow10]
    rw [show min (10:ℝ) ((8 - 2) * 1.4) = 8.4 by norm_num]
    norm_num
  have houtR : (log10 (pow10 2) + log10 (pow10 8)) / 2 +
      min 10 ((log10 (pow10 8) - log10 (pow10 2)) * 1.4) / 2 ≤
      log10 DEFAULT_MAX_YEARS := by
    rw [log10_pow10, log10_pow10]
    rw [show min (10:ℝ) ((8 - 2) * 1.4) = 8.4 by norm_num]
    calc ((2:ℝ) + 8) / 2 + 8.4 / 2 = 9.2 := by norm_num
    _ ≤ log10 DEFAULT_MAX_YEARS := ninePointTwo_le_log10_max
  have hzo8 : handleZoomOut ⟨pow10 2, pow10 8⟩ =
      ⟨pow10 ((log10 (pow10 2) + log10 (pow10 8)) / 2 -
          min 10 ((log10 (pow10 8) - log10 (pow10 2)) * 1.4) / 2),
        pow10 ((log10 (pow10 2) + log10 (pow10 8)) / 2 +
          min 10 ((log10 (pow10 8) - log10 (pow10 2)) * 1.4) / 2)⟩ := by
    rw [handleZoomOut_def]
    exact zoom_no_clamp _ _ houtL houtR
  have hstart : (1:ℝ) ≤ (handleZoomOut ⟨pow10 2, pow10 8⟩).viewStart := by
    rw [hzo8]
    exact one_le_pow10 (by
      rw [log10_pow10, log10_pow10]
      rw [show min (10:ℝ) ((8 - 2) * 1.4) = 8.4 by norm_num]
      norm_num)
  have H := C1_zoom_center_anchor ⟨pow10 2, pow10 8⟩ h1 h2 h3 hspan houtL houtR
  exact ⟨h1, h2, h3, H.2.1, H.2.2.1, H.2.2.2 hstart⟩

/-! ## Preservation of the window invariant (claim C3) -/

section Preservation

/-- `handleViewChange` produces a valid window whenever the requested pair
does not straddle the bounds in the wrong direction. -/
lemma validWindow_handleViewChange {a b : ℝ} (h1 : DEFAULT_MIN_YEARS < b)
    (h2 : a < DEFAULT_MAX_YEARS) (h3 : a < b) :
    validWindow (handleViewChange a b) := by
  refine ⟨le_max_left _ _, ?_, min_le_left _ _⟩
  show max DEFAULT_MIN_YEARS a < min DEFAULT_MAX_YEARS b
  rw [max_lt_iff, lt_min_iff, lt_min_iff]
  exact ⟨⟨min_lt_max_years, h1⟩, h2, h3⟩

lemma validWindow_log_bounds {w : ViewWindow} (h : validWindow w) :
    -3 ≤ log10 w.viewStart ∧ log10 w.viewStart < log10 w.viewEnd ∧
      log10 w.viewEnd ≤ log10 DEFAULT_MAX_YEARS := by
  obtain ⟨h1, h2, h3⟩ := h
  have hs0 : 0 < w.viewStart := lt_of_lt_of_le min_years_pos h1
  have he0 : 0 < w.viewEnd := lt_trans hs0 h2
  refine ⟨?_, log10_lt_log10 hs0 h2, log10_le_log10 he0 h3⟩
  rw [← log10_min_years]
  exact log10_le_log10 min_years_pos h1

/-- The clamped symmetric window around any in-range center is valid. -/
lemma validWindow_centered_clamp (c h : ℝ) (hh : 0 < h) (hc1 : -3 ≤ c)
    (hc2 : c ≤ log10 DEFAULT_MAX_YEARS) :
    validWindow (handleViewChange (max DEFAULT_MIN_YEARS (pow10 (c - h)))
      (min DEFAULT_MAX_YEARS (pow10 (c + h)))) := by
  have hlow : DEFAULT_MIN_YEARS < pow10 (c + h) := by
    rw [min_years_eq_pow10]
    exact pow10_lt_pow10_iff.mpr (by linarith)
  have hhigh : pow10 (c - h) < DEFAULT_MAX_YEARS := by
    rw [← pow10_log10_max]
    exact pow10_lt_pow10_iff.mpr (by linarith)
  apply validWindow_handleViewChange
  · rw [lt_min_iff]; exact ⟨min_lt_max_years, hlow⟩
  · rw [max_lt_iff]; exact ⟨min_lt_max_years, hhigh⟩
  · rw [max_lt_iff, lt_min_iff, lt_min_iff]
    exact ⟨⟨min_lt_max_years, hlow⟩, hhigh,
      pow10_lt_pow10_iff.mpr (by linarith)⟩

lemma validWindow_handleZoomIn {w : ViewWindow} (h : validWindow w) :
    validWindow (handleZoomIn w) := by
  obtain ⟨hs, hlt, he⟩ := validWindow_log_bounds h
  rw [handleZoomIn_def]
  have := validWindow_centered_clamp ((log10 w.viewStart + log10 w.viewEnd) / 2)
    (max 0.5 ((log10 w.viewEnd - log10 w.viewStart) * 0.7) / 2)
    (by positivity) (by linarith) (by linarith)
  exact this

lemma validWindow_handleZoomOut {w : ViewWindow} (h : validWindow w) :
    validWindow (handleZoomOut w) := by
  obtain ⟨hs, hlt, he⟩ := validWindow_log_bounds h
  rw [handleZoomOut_def]
  have hpos : 0 < min 10 ((log10 w.viewEnd - log10 w.viewStart) * 1.4) / 2 := by
    rw [div_pos_iff]
    left
    constructor
    · rw [lt_min_iff]
      constructor
      · norm_num
      · nlinarith
    · norm_num
  exact validWindow_centered_clamp ((log10 w.viewStart + log10 w.viewEnd) / 2)
    (min 10 ((log10 w.viewEnd - log10 w.viewStart) * 1.4) / 2)
    hpos (by linarith) (by linarith)

lemma validWindow_handlePanLeft {w : ViewWindow} (h : validWindow w) :
    validWindow (handlePanLeft w) := by
  obtain ⟨hs, hlt, he⟩ := validWindow_log_bounds h
  have hs0 : 0 < w.viewStart := lt_of_lt_of_le min_years_pos h.1
  have he0 : 0 < w.viewEnd := lt_trans hs0 h.2.1
  have hp : 0 < (log10 w.viewEnd - log10 w.viewStart) * 0.25 := by nlinarith
  rw [handlePanLeft_def]
  by_cases hov : DEFAULT_MAX_YEARS < pow10 (log10 w.viewEnd +
      (log10 w.viewEnd - log10 w.viewStart) * 0.25)
  · rw [if_pos hov]
    apply validWindow_handleViewChange min_lt_max_years
    · rw [show log10 w.viewStart + (log10 w.viewEnd - log10 w.viewStart) * 0.25 -
          (log10 w.viewEnd + (log10 w.viewEnd - log10 w.viewStart) * 0.25 -
            log10 DEFAULT_MAX_YEARS) =
          log10 DEFAULT_MAX_YEARS - (log10 w.viewEnd - log10 w.viewStart) by ring]
      calc pow10 (log10 DEFAULT_MAX_YEARS - (log10 w.viewEnd - log10 w.viewStart)) <
          pow10 (log10 DEFAULT_MAX_YEARS) := pow10_lt_pow10_iff.mpr (by linarith)
      _ = DEFAULT_MAX_YEARS := pow10_log10_max
    · rw [show log10 w.viewStart + (log10 w.viewEnd - log10 w.viewStart) * 0.25 -
          (log10 w.viewEnd + (log10 w.viewEnd - log10 w.viewStart) * 0.25 -
            log10 DEFAULT_MAX_YEARS) =
          log10 DEFAULT_MAX_YEARS - (log10 w.viewEnd - log10 w.viewStart) by ring]
      calc pow10 (log10 DEFAULT_MAX_YEARS - (log10 w.viewEnd - log10 w.viewStart)) <
          pow10 (log10 DEFAULT_MAX_YEARS) := pow10_lt_pow10_iff.mpr (by linarith)
      _ = DEFAULT_MAX_YEARS := pow10_log10_max
  · rw [if_neg hov]
    push_neg at hov
    apply validWindow_handleViewChange
    · calc DEFAULT_MIN_YEARS ≤ w.viewStart := h.1
      _ < w.viewEnd := h.2.1
      _ = pow10 (log10 w.viewEnd) := (pow10_log10 he0).symm
      _ < pow10 (log10 w.viewEnd + (log10 w.viewEnd - log10 w.viewStart) * 0.25) :=
        pow10_lt_pow10_iff.mpr (by linarith)
    · exact lt_of_lt_of_le (pow10_lt_pow10_iff.mpr (by linarith)) hov
    · exact pow10_lt_pow10_iff.mpr (by linarith)

lemma validWindow_handlePanRight {w : ViewWindow} (h : validWindow w) :
    validWindow (handlePanRight w) := by
  obtain ⟨hs, hlt, he⟩ := validWindow_log_bounds h
  have hp : 0 < (log10 w.viewEnd - log10 w.viewStart) * 0.25 := by nlinarith
  rw [handlePanRight_def]
  by_cases hun : pow10 (log10 w.viewStart -
      (log10 w.viewEnd - log10 w.viewStart) * 0.25) < DEFAULT_MIN_YEARS
  · rw [if_pos hun]
    apply validWindow_handleViewChange
    · rw [show log10 w.viewEnd - (log10 w.viewEnd - log10 w.viewStart) * 0.25 +
          (log10 DEFAULT_MIN_YEARS -
            (log10 w.viewStart - (log10 w.viewEnd - log10 w.viewStart) * 0.25)) =
          log10 DEFAULT_MIN_YEARS + (log10 w.viewEnd - log10 w.viewStart) by ring,
        min_years_eq_pow10, log10_pow10]
      exact pow10_lt_pow10_iff.mpr (by linarith)
    · exact min_lt_max_years
    · rw [show log10 w.viewEnd - (log10 w.viewEnd - log10 w.viewStart) * 0.25 +
          (log10 DEFAULT_MIN_YEARS -
            (log10 w.viewStart - (log10 w.viewEnd - log10 w.viewStart) * 0.25)) =
          log10 DEFAULT_MIN_YEARS + (log10 w.viewEnd - log10 w.viewStart) by ring,
        min_years_eq_pow10, log10_pow10]
      exact pow10_lt_pow10_iff.mpr (by linarith)
  · rw [if_neg hun]
    push_neg at hun
    apply validWindow_handleViewChange
    · calc DEFAULT_MIN_YEARS ≤ pow10 (log10 w.viewStart -
          (log10 w.viewEnd - log10 w.viewStart) * 0.25) := hun
      _ < pow10 (log10 w.viewEnd - (log10 w.viewEnd - log10 w.viewStart) * 0.25) :=
        pow10_lt_pow10_iff.mpr (by linarith)
    · rw [← pow10_log10_max]
      exact pow10_lt_pow10_iff.mpr (by linarith)
    · exact pow10_lt_pow10_iff.mpr (by linarith)

/-- `logPositionToYear` over the global bounds always returns a value in
`[1, DEFAULT_MAX_YEARS]`. -/
lemma logPositionToYear_global_bounds (p : ℝ) :
    1 ≤ logPositionToYear p DEFAULT_MIN_YEARS DEFAULT_MAX_YEARS ∧
      logPositionToYear p DEFAULT_MIN_YEARS DEFAULT_MAX_YEARS ≤ DEFAULT_MAX_YEARS := by
  rw [logPositionToYear_def, max_eq_right min_years_lt_one.le, log10_one]
  have hcp0 : 0 ≤ max 0 (min 100 p) := le_max_left _ _
  have hcp1 : max 0 (min 100 p) ≤ 100 := by
    rw [max_le_iff]
    exact ⟨by norm_num, le_trans (min_le_left _ _) le_rfl⟩
  have hLM : (0:ℝ) < log10 DEFAULT_MAX_YEARS := lt_trans (by norm_num) nine_lt_log10_max
  constructor
  · apply one_le_pow10
    have : max 0 (min 100 p) / 100 * (log10 DEFAULT_MAX_YEARS - 0) ≤
        log10 DEFAULT_MAX_YEARS := by
      rw [sub_zero]
      calc max 0 (min 100 p) / 100 * log10 DEFAULT_MAX_YEARS ≤
          100 / 100 * log10 DEFAULT_MAX_YEARS := by
            apply mul_le_mul_of_nonneg_right _ hLM.le
            apply div_le_div_of_nonneg_right hcp1
            norm_num
      _ = log10 DEFAULT_MAX_YEARS := by norm_num
    linarith
  · apply pow10_le_max_years
    have : 0 ≤ max 0 (min 100 p) / 100 * (log10 DEFAULT_MAX_YEARS - 0) := by
      rw [sub_zero]
      positivity
    linarith

lemma validWindow_handleMinimapClick {w : ViewWindow} (h : validWindow w) (p : ℝ) :
    validWindow (handleMinimapClick w p) := by
  obtain ⟨hs, hlt, he⟩ := validWindow_log_bounds h
  obtain ⟨hy1, hy2⟩ := logPositionToYear_global_bounds p
  have hy0 : 0 < logPositionToYear p DEFAULT_MIN_YEARS DEFAULT_MAX_YEARS :=
    lt_of_lt_of_le one_pos hy1
  have hc1 : 0 ≤ log10 (logPositionToYear p DEFAULT_MIN_YEARS DEFAULT_MAX_YEARS) := by
    rw [← log10_one]
    exact log10_le_log10 one_pos hy1
  have hc2 : log10 (logPositionToYear p DEFAULT_MIN_YEARS DEFAULT_MAX_YEARS) ≤
      log10 DEFAULT_MAX_YEARS := log10_le_log10 hy0 hy2
  have habs : 0 < |log10 w.viewEnd - log10 w.viewStart| / 2 := by
    rw [abs_of_pos (by linarith)]
    linarith
  rw [handleMinimapClick_def]
  exact validWindow_centered_clamp _ _ habs (by linarith) hc2

lemma validWindow_handleClusterClick {w : ViewWindow} (h : validWindow w)
    {mn mx : ℝ} (h1 : w.viewStart ≤ mn) (h2 : mn ≤ mx) (h3 : mx ≤ w.viewEnd) :
    validWindow (handleClusterClick mn mx) := by
  have hmn1 : DEFAULT_MIN_YEARS ≤ mn := le_trans h.1 h1
  have hmn0 : 0 < mn := lt_of_lt_of_le min_years_pos hmn1
  have hmx0 : 0 < mx := lt_of_lt_of_le hmn0 h2
  have hmxM : mx ≤ DEFAULT_MAX_YEARS := le_trans h3 h.2.2
  have hlmn : -3 ≤ log10 mn := by
    rw [← log10_min_years]
    exact log10_le_log10 min_years_pos hmn1
  have hlle : log10 mn ≤ log10 mx := log10_le_log10 hmn0 h2
  have hlmx : log10 mx ≤ log10 DEFAULT_MAX_YEARS := log10_le_log10 hmx0 hmxM
  rw [handleClusterClick_def, getClusterZoomBounds_eq]
  by_cases hc : (log10 mx + (log10 mx - log10 mn) * (1.5 - 1)) -
      (log10 mn - (log10 mx - log10 mn) * (1.5 - 1)) < 0.5
  · rw [if_pos hc]
    show validWindow (handleViewChange
      (max DEFAULT_MIN_YEARS (pow10 ((log10 mn + log10 mx) / 2 - 0.25)))
      (min DEFAULT_MAX_YEARS (pow10 ((log10 mn + log10 mx) / 2 + 0.25))))
    exact validWindow_centered_clamp _ 0.25 (by norm_num) (by linarith) (by linarith)
  · rw [if_neg hc]
    push_neg at hc
    have hspan : 0.25 ≤ log10 mx - log10 mn := by linarith
    show validWindow (handleViewChange
      (max DEFAULT_MIN_YEARS (pow10 (log10 mn - (log10 mx - log10 mn) * (1.5 - 1))))
      (min DEFAULT_MAX_YEARS (pow10 (log10 mx + (log10 mx - log10 mn) * (1.5 - 1)))))
    rw [show log10 mn - (log10 mx - log10 mn) * (1.5 - 1) =
        (log10 mn + log10 mx) / 2 - (log10 mx - log10 mn) by ring,
      show log10 mx + (log10 mx - log10 mn) * (1.5 - 1) =
        (log10 mn + log10 mx) / 2 + (log10 mx - log10 mn) by ring]
    exact validWindow_centered_clamp _ _ (by linarith) (by linarith) (by linarith)

lemma validWindow_centerOnEvent {y : ℝ} (hy : 1 ≤ y) :
    validWindow (centerOnEvent y) := by
  refine ⟨le_rfl, ?_, min_le_right _ _⟩
  show DEFAULT_MIN_YEARS < min (y * 2) DEFAULT_MAX_YEARS
  rw [lt_min_iff]
  constructor
  · have := min_years_lt_one
    linarith
  · exact min_lt_max_years

lemma validWindow_handleReset {cy : ℝ} (h1 : 1 ≤ cy)
    (h2 : cy ≤ DEFAULT_MAX_YEARS) : validWindow (handleReset cy) :=
  ⟨le_rfl, lt_of_lt_of_le min_years_lt_one h1, h2⟩

end Preservation

/-! ## Claim C3 — the window invariant under the view mutators -/

section C3Helpers

lemma log10_two_pos : 0 < log10 2 := Real.logb_pos one_lt_ten (by norm_num)

lemma log10_two_lt_one : log10 2 < 1 := by
  have h := log10_lt_log10 (by norm_num : (0:ℝ) < 2) (by norm_num : (2:ℝ) < 10)
  rwa [log10_ten] at h

/-- Step 1 of the violating trace: center on an event one year ago. -/
lemma trace_center : centerOnEvent 1 = ⟨DEFAULT_MIN_YEARS, 2⟩ := by
  rw [centerOnEvent, show (1:ℝ) * 2 = 2 by norm_num,
    min_eq_left (by norm_num [DEFAULT_MAX_YEARS])]

/-- Step 2: zoom in on `[0.001, 2]`. -/
lemma trace_zoomIn : handleZoomIn ⟨DEFAULT_MIN_YEARS, 2⟩ =
    ⟨pow10 (0.15 * log10 2 - 2.55), pow10 (0.85 * log10 2 - 0.45)⟩ := by
  have hspan : max 0.5 ((log10 2 - log10 DEFAULT_MIN_YEARS) * 0.7) =
      (log10 2 + 3) * 0.7 := by
    rw [log10_min_years, max_eq_right (by linarith [log10_two_pos])]
    ring
  rw [handleZoomIn_def]
  show handleViewChange
      (max DEFAULT_MIN_YEARS (pow10 ((log10 DEFAULT_MIN_YEARS + log10 2) / 2 -
        max 0.5 ((log10 2 - log10 DEFAULT_MIN_YEARS) * 0.7) / 2)))
      (min DEFAULT_MAX_YEARS (pow10 ((log10 DEFAULT_MIN_YEARS + log10 2) / 2 +
        max 0.5 ((log10 2 - log10 DEFAULT_MIN_YEARS) * 0.7) / 2))) = _
  rw [hspan, log10_min_years,
    show (-3 + log10 2) / 2 - (log10 2 + 3) * 0.7 / 2 =
      0.15 * log10 2 - 2.55 by ring,
    show (-3 + log10 2) / 2 + (log10 2 + 3) * 0.7 / 2 =
      0.85 * log10 2 - 0.45 by ring]
  exact zoom_no_clamp _ _ (by linarith [log10_two_pos])
    (le_trans (by linarith [log10_two_lt_one]) ninePointTwo_le_log10_max)

/-- Step 3: pan right; the global minimum absorbs the underflow, leaving a
window `[0.001, 10^(0.7·log10 2 - 0.9)]` whose far bound is below one year. -/
lemma trace_panRight :
    handlePanRight ⟨pow10 (0.15 * log10 2 - 2.55), pow10 (0.85 * log10 2 - 0.45)⟩ =
      ⟨DEFAULT_MIN_YEARS, pow10 (0.7 * log10 2 - 0.9)⟩ := by
  rw [handlePanRight_def]
  show (if pow10 (log10 (pow10 (0.15 * log10 2 - 2.55)) -
      (log10 (pow10 (0.85 * log10 2 - 0.45)) -
        log10 (pow10 (0.15 * log10 2 - 2.55))) * 0.25) < DEFAULT_MIN_YEARS then _
    else _) = _
  rw [log10_pow10, log10_pow10]
  rw [show 0.15 * log10 2 - 2.55 -
      ((0.85 * log10 2 - 0.45) - (0.15 * log10 2 - 2.55)) * 0.25 =
      -0.025 * log10 2 - 3.075 by ring]
  rw [if_pos (by
    rw [min_years_eq_pow10]
    exact pow10_lt_pow10_iff.mpr (by linarith [log10_two_pos]))]
  rw [log10_min_years,
    show 0.85 * log10 2 - 0.45 -
        ((0.85 * log10 2 - 0.45) - (0.15 * log10 2 - 2.55)) * 0.25 +
        (-3 - (-0.025 * log10 2 - 3.075)) = 0.7 * log10 2 - 0.9 by ring]
  exact handleViewChange_of_clamped le_rfl
    (pow10_le_max_years
      (le_trans (by linarith [log10_two_lt_one]) ninePointTwo_le_log10_max))

lemma logPositionToYear_of_ge_100 {p : ℝ} (hp : 100 ≤ p) :
    logPositionToYear p DEFAULT_MIN_YEARS DEFAULT_MAX_YEARS = 1 := by
  rw [logPositionToYear_def, max_eq_right min_years_lt_one.le, log10_one,
    min_eq_left hp, show max (0:ℝ) 100 = 100 by norm_num,
    show log10 DEFAULT_MAX_YEARS - (100:ℝ) / 100 * (log10 DEFAULT_MAX_YEARS - 0) =
      0 by ring, pow10_zero]

/-- Step 4: a `move` drag of zero pixels on that window.  The viewfinder of
`[0.001, 10^(0.7·log10 2 - 0.9)]` is inverted (the far bound sits beyond
position 100 while the near bound clamps to 100), and converting back
collapses the window to the degenerate `[1, 1]`. -/
lemma trace_drag :
    handleMouseMove ⟨DEFAULT_MIN_YEARS, pow10 (0.7 * log10 2 - 0.9)⟩
      DragType.move 0 = ⟨1, 1⟩ := by
  have hLM0 : (0:ℝ) < log10 DEFAULT_MAX_YEARS := lt_trans (by norm_num) nine_lt_log10_max
  have hE2 : 0.7 * log10 2 - 0.9 < 0 := by linarith [log10_two_lt_one]
  have hiR : yearToLogPosition DEFAULT_MIN_YEARS DEFAULT_MIN_YEARS DEFAULT_MAX_YEARS =
      100 := by
    rw [yearToLogPosition_def, if_pos le_rfl]
  have hiL : yearToLogPosition (pow10 (0.7 * log10 2 - 0.9)) DEFAULT_MIN_YEARS
      DEFAULT_MAX_YEARS =
      100 - (0.7 * log10 2 - 0.9) / log10 DEFAULT_MAX_YEARS * 100 := by
    rw [yearToLogPosition_def,
      if_neg (not_le.mpr (by
        rw [min_years_eq_pow10]
        exact pow10_lt_pow10_iff.mpr (by linarith [log10_two_pos]))),
      if_neg (not_le.mpr (by
        calc pow10 (0.7 * log10 2 - 0.9) < pow10 (log10 DEFAULT_MAX_YEARS) :=
          pow10_lt_pow10_iff.mpr (by linarith [ninePointTwo_le_log10_max])
        _ = DEFAULT_MAX_YEARS := pow10_log10_max)),
      max_eq_right min_years_lt_one.le, log10_one, log10_pow10]
    ring
  have hv : 100 < 100 - (0.7 * log10 2 - 0.9) / log10 DEFAULT_MAX_YEARS * 100 := by
    have hneg : (0.7 * log10 2 - 0.9) / log10 DEFAULT_MAX_YEARS < 0 :=
      div_neg_of_neg_of_pos hE2 hLM0
    nlinarith
  rw [handleMouseMove_move, hiR, hiL]
  rw [show 100 - (100 - (100 - (0.7 * log10 2 - 0.9) / log10 DEFAULT_MAX_YEARS * 100)) =
    100 - (0.7 * log10 2 - 0.9) / log10 DEFAULT_MAX_YEARS * 100 by ring]
  rw [add_zero, min_self, max_eq_right (by linarith)]
  rw [show 100 - (0.7 * log10 2 - 0.9) / log10 DEFAULT_MAX_YEARS * 100 +
      (100 - (100 - (0.7 * log10 2 - 0.9) / log10 DEFAULT_MAX_YEARS * 100)) =
      (100 : ℝ) by ring]
  rw [logPositionToYear_of_ge_100 le_rfl, logPositionToYear_of_ge_100 hv.le]
  exact handleViewChange_of_clamped min_years_lt_one.le
    (by norm_num [DEFAULT_MAX_YEARS])

end C3Helpers

/-- C3 counterexample: starting from the default window with the current
year 2026, the gesture sequence center-on-event(1 year ago), zoom in,
pan right, viewfinder-move-drag of zero pixels reaches the degenerate
window `[1, 1]`, which violates `start < end`.  (The pan right underflows
into the global minimum, producing a window whose far bound is below one
year; such a window's viewfinder is inverted on the minimap, and the move
drag collapses it.) -/
theorem C3_counterexample :
    Reachable 2026 ⟨1, 1⟩ ∧ ¬ validWindow ⟨1, 1⟩ := by
  constructor
  · have r0 : Reachable 2026 (handleReset 2026) := Relation.ReflTransGen.refl
    have r1 : Reachable 2026 ⟨DEFAULT_MIN_YEARS, 2⟩ := by
      have h := Relation.ReflTransGen.tail r0
        (Step.center (handleReset 2026) 1 le_rfl)
      rwa [trace_center] at h
    have r2 : Reachable 2026
        ⟨pow10 (0.15 * log10 2 - 2.55), pow10 (0.85 * log10 2 - 0.45)⟩ := by
      have h := Relation.ReflTransGen.tail r1 (Step.zoomIn _)
      rwa [trace_zoomIn] at h
    have r3 : Reachable 2026 ⟨DEFAULT_MIN_YEARS, pow10 (0.7 * log10 2 - 0.9)⟩ := by
      have h := Relation.ReflTransGen.tail r2 (Step.panRight _)
      rwa [trace_panRight] at h
    have h := Relation.ReflTransGen.tail r3 (Step.drag _ DragType.move 0)
    rwa [trace_drag] at h
  · intro hv
    exact lt_irrefl (1:ℝ) hv.2.1

/-- C3 (amended): for every window reachable from the default window by pan,
zoom, minimap click, cluster zoom, center-on-event and reset — the viewfinder
drags excluded — the invariant `globalMin ≤ start < end ≤ globalMax` holds
(for any current-year value in `[1, globalMax]`). -/
theorem C3_invariant_no_drag (cy : ℝ) (h1 : 1 ≤ cy) (h2 : cy ≤ DEFAULT_MAX_YEARS) :
    ∀ w, ReachableNoDrag cy w → validWindow w := by
  intro w hw
  induction hw with
  | refl => exact validWindow_handleReset h1 h2
  | tail hsteps hstep ih =>
    cases hstep with
    | panLeft => exact validWindow_handlePanLeft ih
    | panRight => exact validWindow_handlePanRight ih
    | zoomIn => exact validWindow_handleZoomIn ih
    | zoomOut => exact validWindow_handleZoomOut ih
    | click p hp hp' => exact validWindow_handleMinimapClick ih p
    | clusterZoom mn mx hh1 hh2 hh3 =>
      exact validWindow_handleClusterClick ih hh1 hh2 hh3
    | center y hy => exact validWindow_centerOnEvent hy
    | reset => exact validWindow_handleReset h1 h2

/-- Witness for C3 with current year 2026 at the default window itself. -/
theorem C3_invariant_no_drag_witness :
    (1 : ℝ) ≤ 2026 ∧ (2026 : ℝ) ≤ DEFAULT_MAX_YEARS ∧
      validWindow (handleReset 2026) :=
  ⟨by norm_num, by norm_num [DEFAULT_MAX_YEARS],
    C3_invariant_no_drag 2026 (by norm_num) (by norm_num [DEFAULT_MAX_YEARS])
      (handleReset 2026) Relation.ReflTransGen.refl⟩

/-! ## Claim C6 — pan-left then pan-right round trip -/

section C6Helpers

/-- Pan-left on `[10^9, globalMax]` hits the global maximum; the overflow is
fully absorbed and the window does not move. -/
lemma panLeft_at_max : handlePanLeft ⟨pow10 9, DEFAULT_MAX_YEARS⟩ =
    ⟨pow10 9, DEFAULT_MAX_YEARS⟩ := by
  rw [handlePanLeft_def]
  show (if DEFAULT_MAX_YEARS < pow10 (log10 DEFAULT_MAX_YEARS +
      (log10 DEFAULT_MAX_YEARS - log10 (pow10 9)) * 0.25) then _ else _) = _
  simp only [log10_pow10]
  rw [if_pos (by
    calc DEFAULT_MAX_YEARS = pow10 (log10 DEFAULT_MAX_YEARS) := pow10_log10_max.symm
    _ < pow10 (log10 DEFAULT_MAX_YEARS + (log10 DEFAULT_MAX_YEARS - 9) * 0.25) :=
      pow10_lt_pow10_iff.mpr (by linarith [nine_lt_log10_max]))]
  rw [show (9:ℝ) + (log10 DEFAULT_MAX_YEARS - 9) * 0.25 -
      (log10 DEFAULT_MAX_YEARS + (log10 DEFAULT_MAX_YEARS - 9) * 0.25 -
        log10 DEFAULT_MAX_YEARS) = 9 by ring]
  exact handleViewChange_of_clamped (min_years_le_pow10 (by norm_num)) le_rfl

/-- Pan-right on `[10^9, globalMax]` moves both bounds down by a quarter of
the log-span. -/
lemma panRight_at_max : handlePanRight ⟨pow10 9, DEFAULT_MAX_YEARS⟩ =
    ⟨pow10 (9 - (log10 DEFAULT_MAX_YEARS - 9) * 0.25),
      pow10 (log10 DEFAULT_MAX_YEARS - (log10 DEFAULT_MAX_YEARS - 9) * 0.25)⟩ := by
  rw [handlePanRight_def]
  show (if pow10 (log10 (pow10 9) - (log10 DEFAULT_MAX_YEARS - log10 (pow10 9)) * 0.25) <
      DEFAULT_MIN_YEARS then _ else _) = _
  simp only [log10_pow10]
  rw [if_neg (not_lt.mpr (min_years_le_pow10
    (by linarith [log10_max_lt_ten, nine_lt_log10_max])))]
  exact handleViewChange_of_clamped
    (min_years_le_pow10 (by linarith [log10_max_lt_ten, nine_lt_log10_max]))
    (pow10_le_max_years (by linarith [nine_lt_log10_max]))

lemma one_point_one_le_pow10 : (1.1 : ℝ) ≤ pow10 0.05 := by
  have h20 : ((1.1:ℝ)) ^ (20:ℕ) ≤ ((10:ℝ) ^ (0.05:ℝ)) ^ (20:ℕ) := by
    rw [← Real.rpow_natCast ((10:ℝ) ^ (0.05:ℝ)) 20,
      ← Real.rpow_mul (by norm_num : (0:ℝ) ≤ 10),
      show (0.05:ℝ) * ((20:ℕ):ℝ) = 1 by norm_num, Real.rpow_one]
    norm_num
  exact le_of_pow_le_pow_left₀ (by norm_num) (pow10_pos _).le h20

end C6Helpers

/-- C6 counterexample: on the valid window `[10^9, globalMax]`, pan-left is
absorbed entirely by the global-maximum clamp (the window does not move), so
the subsequent pan-right shifts the window toward the present: the final
start bound is more than `10^7` years short of the original `10^9` — far
beyond floating-point tolerance. -/
theorem C6_counterexample :
    (handlePanRight (handlePanLeft ⟨pow10 9, DEFAULT_MAX_YEARS⟩)).viewStart +
        pow10 7 <
      (ViewWindow.mk (pow10 9) DEFAULT_MAX_YEARS).viewStart := by
  rw [panLeft_at_max, panRight_at_max]
  show pow10 (9 - (log10 DEFAULT_MAX_YEARS - 9) * 0.25) + pow10 7 < pow10 9
  have hq : (0.05 : ℝ) ≤ (log10 DEFAULT_MAX_YEARS - 9) * 0.25 := by
    linarith [ninePointTwo_le_log10_max]
  have hA : pow10 (9 - (log10 DEFAULT_MAX_YEARS - 9) * 0.25) ≤ pow10 8.95 :=
    pow10_le_pow10_iff.mpr (by linarith)
  have hsplit : pow10 9 = pow10 8.95 * pow10 0.05 := by
    rw [pow10, pow10, pow10, ← Real.rpow_add ten_pos]
    norm_num
  have h895 : pow10 8 < pow10 8.95 := pow10_lt_pow10_iff.mpr (by norm_num)
  have hp8 : pow10 8 = 100000000 := by
    rw [show (8:ℝ) = ((8:ℕ):ℝ) by norm_num, pow10_natCast]; norm_num
  have hp7 : pow10 7 = 10000000 := by
    rw [show (7:ℝ) = ((7:ℕ):ℝ) by norm_num, pow10_natCast]; norm_num
  nlinarith [one_point_one_le_pow10, pow10_pos 8.95, pow10_pos 0.05]

/-- C6 (amended): pan-left followed by pan-right restores the window exactly
whenever pan-left does not hit the global maximum (no clamp engages); when it
does, the absorbed overflow is not restored (see the counterexample). -/
theorem C6_pan_round_trip (w : ViewWindow) (h1 : DEFAULT_MIN_YEARS ≤ w.viewStart)
    (h2 : w.viewStart < w.viewEnd)
    (hno : pow10 (log10 w.viewEnd + (log10 w.viewEnd - log10 w.viewStart) * 0.25) ≤
      DEFAULT_MAX_YEARS) :
    handlePanRight (handlePanLeft w) = w := by
  have hs0 : 0 < w.viewStart := lt_of_lt_of_le min_years_pos h1
  have he0 : 0 < w.viewEnd := lt_trans hs0 h2
  have hlt : log10 w.viewStart < log10 w.viewEnd := log10_lt_log10 hs0 h2
  have hls : -3 ≤ log10 w.viewStart := by
    rw [← log10_min_years]; exact log10_le_log10 min_years_pos h1
  have hend : w.viewEnd ≤ DEFAULT_MAX_YEARS := by
    refine le_trans (le_of_lt ?_) hno
    calc w.viewEnd = pow10 (log10 w.viewEnd) := (pow10_log10 he0).symm
    _ < pow10 (log10 w.viewEnd + (log10 w.viewEnd - log10 w.viewStart) * 0.25) :=
      pow10_lt_pow10_iff.mpr (by linarith)
  have hPL : handlePanLeft w =
      ⟨pow10 (log10 w.viewStart + (log10 w.viewEnd - log10 w.viewStart) * 0.25),
        pow10 (log10 w.viewEnd + (log10 w.viewEnd - log10 w.viewStart) * 0.25)⟩ := by
    rw [handlePanLeft_def, if_neg (not_lt.mpr hno)]
    exact handleViewChange_of_clamped (min_years_le_pow10 (by linarith)) hno
  rw [hPL, handlePanRight_def]
  show (if pow10 (log10 (pow10 (log10 w.viewStart +
        (log10 w.viewEnd - log10 w.viewStart) * 0.25)) -
      (log10 (pow10 (log10 w.viewEnd + (log10 w.viewEnd - log10 w.viewStart) * 0.25)) -
        log10 (pow10 (log10 w.viewStart +
          (log10 w.viewEnd - log10 w.viewStart) * 0.25))) * 0.25) <
      DEFAULT_MIN_YEARS then _ else _) = _
  simp only [log10_pow10]
  rw [show log10 w.viewStart + (log10 w.viewEnd - log10 w.viewStart) * 0.25 -
      (log10 w.viewEnd + (log10 w.viewEnd - log10 w.viewStart) * 0.25 -
        (log10 w.viewStart + (log10 w.viewEnd - log10 w.viewStart) * 0.25)) * 0.25 =
      log10 w.viewStart by ring]
  rw [show log10 w.viewEnd + (log10 w.viewEnd - log10 w.viewStart) * 0.25 -
      (log10 w.viewEnd + (log10 w.viewEnd - log10 w.viewStart) * 0.25 -
        (log10 w.viewStart + (log10 w.viewEnd - log10 w.viewStart) * 0.25)) * 0.25 =
      log10 w.viewEnd by ring]
  rw [pow10_log10 hs0, pow10_log10 he0, if_neg (not_lt.mpr h1),
    handleViewChange_of_clamped h1 hend]

/-- Witness for C6 on the window `[1, 10^2]`. -/
theorem C6_pan_round_trip_witness :
    DEFAULT_MIN_YEARS ≤ (1:ℝ) ∧ (1:ℝ) < pow10 2 ∧
    pow10 (log10 (pow10 2) + (log10 (pow10 2) - log10 1) * 0.25) ≤
      DEFAULT_MAX_YEARS ∧
    handlePanRight (handlePanLeft ⟨1, pow10 2⟩) = ⟨1, pow10 2⟩ := by
  have h1 : DEFAULT_MIN_YEARS ≤ (1:ℝ) := min_years_lt_one.le
  have h2 : (1:ℝ) < pow10 2 := by
    calc (1:ℝ) = pow10 0 := pow10_zero.symm
    _ < pow10 2 := pow10_lt_pow10_iff.mpr (by norm_num)
  have hno : pow10 (log10 (pow10 2) + (log10 (pow10 2) - log10 1) * 0.25) ≤
      DEFAULT_MAX_YEARS := by
    rw [log10_pow10, log10_one,
      show (2:ℝ) + (2 - 0) * 0.25 = 2.5 by norm_num]
    exact pow10_le_max_years (le_trans (by norm_num) ninePointTwo_le_log10_max)
  exact ⟨h1, h2, hno, C6_pan_round_trip ⟨1, pow10 2⟩ h1 h2 hno⟩

/-! ## Claims C5 and C7 — cluster zoom bounds -/

section ClusterZoomHelpers

lemma log10_hundred : log10 (100 : ℝ) = 2 := by
  rw [← pow10_two, log10_pow10]

lemma log10_thousand : log10 (1000 : ℝ) = 3 := by
  rw [← pow10_three, log10_pow10]

/-- `getClusterZoomBounds` on the degenerate cluster `[100, 100]`. -/
lemma gczb_at_100_100 : getClusterZoomBounds 100 100 1.5 =
    ⟨pow10 1.75, pow10 2.25⟩ := by
  rw [getClusterZoomBounds_eq, log10_hundred]
  rw [if_pos (by norm_num)]
  rw [show ((2:ℝ) + 2) / 2 - 0.25 = 1.75 by norm_num,
    show ((2:ℝ) + 2) / 2 + 0.25 = 2.25 by norm_num]
  congr 1
  · exact max_eq_right (min_years_le_pow10 (by norm_num))
  · exact min_eq_right (pow10_le_max_years
      (le_trans (by norm_num) ninePointTwo_le_log10_max))

/-- `getClusterZoomBounds` on the cluster span `[100, 1000]`. -/
lemma gczb_at_100_1000 : getClusterZoomBounds 100 1000 1.5 =
    ⟨pow10 1.5, pow10 3.5⟩ := by
  rw [getClusterZoomBounds_eq, log10_hundred, log10_thousand]
  rw [if_neg (by norm_num)]
  rw [show (2:ℝ) - ((3:ℝ) - 2) * (1.5 - 1) = 1.5 by norm_num,
    show (3:ℝ) + ((3:ℝ) - 2) * (1.5 - 1) = 3.5 by norm_num]
  congr 1
  · exact max_eq_right (min_years_le_pow10 (by norm_num))
  · exact min_eq_right (pow10_le_max_years
      (le_trans (by norm_num) ninePointTwo_le_log10_max))

end ClusterZoomHelpers

/-- C7: on a cluster whose three members all sit at 100 years ago,
`getClusterZoomBounds` returns the finite window `[10^1.75, 10^2.25]`:
strictly positive, nonzero span, containing 100 strictly, and centred on 100
in log space (the product of the bounds is `100²`).  No division by zero and
no infinite zoom occurs. -/
theorem C7_identical_members :
    (createClusterObject [⟨1, 40, 100, 3⟩, ⟨2, 41, 100, 3⟩, ⟨3, 42, 100, 3⟩]).minYearsAgo
        = 100 ∧
    (createClusterObject [⟨1, 40, 100, 3⟩, ⟨2, 41, 100, 3⟩, ⟨3, 42, 100, 3⟩]).maxYearsAgo
        = 100 ∧
    0 < (getClusterZoomBounds 100 100 1.5).viewStart ∧
    (getClusterZoomBounds 100 100 1.5).viewStart <
      (getClusterZoomBounds 100 100 1.5).viewEnd ∧
    (getClusterZoomBounds 100 100 1.5).viewStart < 100 ∧
    (100 : ℝ) < (getClusterZoomBounds 100 100 1.5).viewEnd ∧
    (getClusterZoomBounds 100 100 1.5).viewStart *
      (getClusterZoomBounds 100 100 1.5).viewEnd = 100 * 100 := by
  refine ⟨by norm_num [createClusterObject, listMin, min_def],
    by norm_num [createClusterObject, listMax, max_def], ?_, ?_, ?_, ?_, ?_⟩ <;>
    rw [gczb_at_100_100]
  · exact pow10_pos _
  · exact pow10_lt_pow10_iff.mpr (by norm_num)
  · show pow10 1.75 < 100
    rw [← pow10_two]
    exact pow10_lt_pow10_iff.mpr (by norm_num)
  · show (100:ℝ) < pow10 2.25
    rw [← pow10_two]
    exact pow10_lt_pow10_iff.mpr (by norm_num)
  · show pow10 1.75 * pow10 2.25 = 100 * 100
    rw [pow10, pow10, ← Real.rpow_add ten_pos,
      show (1.75:ℝ) + 2.25 = ((4:ℕ):ℝ) by norm_num, Real.rpow_natCast]
    norm_num

/-- C5 counterexample: `getClusterZoomBounds` does not size the window from
the minimum gap.  A cluster with members at years-ago 100, 101 and 1000
has minimum distinct gap 1, but the returned window `[10^1.5, 10^3.5]`
spans more than 900 years, so the minimum gap occupies less than 1/25 (4%)
of the view — nowhere near the claimed ≈8% target (and shrinking the gap
further does not change the window at all). -/
theorem C5_counterexample :
    specMinDistinctGap
        ((createClusterObject [⟨1, 40, 100, 3⟩, ⟨2, 41, 101, 3⟩,
          ⟨3, 42, 1000, 3⟩]).events.map (·.yearsAgo)) = 1 ∧
    (createClusterObject [⟨1, 40, 100, 3⟩, ⟨2, 41, 101, 3⟩,
      ⟨3, 42, 1000, 3⟩]).minYearsAgo = 100 ∧
    (createClusterObject [⟨1, 40, 100, 3⟩, ⟨2, 41, 101, 3⟩,
      ⟨3, 42, 1000, 3⟩]).maxYearsAgo = 1000 ∧
    (1:ℝ) /
        ((getClusterZoomBounds 100 1000 1.5).viewEnd -
          (getClusterZoomBounds 100 1000 1.5).viewStart) < 1/25 := by
  refine ⟨?_, ?_, ?_, ?_⟩
  · norm_num [specMinDistinctGap, createClusterObject, listMin, List.product,
      List.filterMap_cons]
  · norm_num [createClusterObject, listMin, min_def]
  · norm_num [createClusterObject, listMax, max_def]
  rw [gczb_at_100_1000]
  show (1:ℝ) / (pow10 3.5 - pow10 1.5) < 1/25
  have h35 : (1000:ℝ) < pow10 3.5 := by
    rw [← pow10_three]
    exact pow10_lt_pow10_iff.mpr (by norm_num)
  have h15 : pow10 1.5 < 100 := by
    rw [← pow10_two]
    exact pow10_lt_pow10_iff.mpr (by norm_num)
  have hD : (900:ℝ) < pow10 3.5 - pow10 1.5 := by linarith
  rw [div_lt_iff₀ (by linarith)]
  nlinarith

/-- C5 (amended): `getClusterZoomBounds` reads only the cluster's
min/max years-ago (never any inter-member gap); it pads the cluster's
log-span by 50% on each side, enforces a minimum log-span of half an order
of magnitude, and clamps to the global bounds — the result always contains
the member range `[minYearsAgo, maxYearsAgo]`, stays inside the global
bounds, and has strictly positive span. -/
theorem C5_cluster_zoom_bounds (mn mx : ℝ) (h1 : DEFAULT_MIN_YEARS ≤ mn)
    (h2 : mn ≤ mx) (h3 : mx ≤ DEFAULT_MAX_YEARS) :
    DEFAULT_MIN_YEARS ≤ (getClusterZoomBounds mn mx 1.5).viewStart ∧
    (getClusterZoomBounds mn mx 1.5).viewStart ≤ mn ∧
    mx ≤ (getClusterZoomBounds mn mx 1.5).viewEnd ∧
    (getClusterZoomBounds mn mx 1.5).viewEnd ≤ DEFAULT_MAX_YEARS ∧
    (getClusterZoomBounds mn mx 1.5).viewStart <
      (getClusterZoomBounds mn mx 1.5).viewEnd := by
  have hmn0 : 0 < mn := lt_of_lt_of_le min_years_pos h1
  have hmx0 : 0 < mx := lt_of_lt_of_le hmn0 h2
  have hlmn : -3 ≤ log10 mn := by
    rw [← log10_min_years]; exact log10_le_log10 min_years_pos h1
  have hlle : log10 mn ≤ log10 mx := log10_le_log10 hmn0 h2
  have hlmx : log10 mx ≤ log10 DEFAULT_MAX_YEARS := log10_le_log10 hmx0 h3
  rw [getClusterZoomBounds_eq]
  by_cases hc : (log10 mx + (log10 mx - log10 mn) * (1.5 - 1)) -
      (log10 mn - (log10 mx - log10 mn) * (1.5 - 1)) < 0.5
  · rw [if_pos hc]
    have hspan : log10 mx - log10 mn < 0.25 := by linarith
    refine ⟨le_max_left _ _, ?_, ?_, min_le_left _ _, ?_⟩
    · show max DEFAULT_MIN_YEARS (pow10 ((log10 mn + log10 mx) / 2 - 0.25)) ≤ mn
      rw [max_le_iff]
      refine ⟨h1, ?_⟩
      calc pow10 ((log10 mn + log10 mx) / 2 - 0.25) ≤ pow10 (log10 mn) :=
        pow10_le_pow10_iff.mpr (by linarith)
      _ = mn := pow10_log10 hmn0
    · show mx ≤ min DEFAULT_MAX_YEARS (pow10 ((log10 mn + log10 mx) / 2 + 0.25))
      rw [le_min_iff]
      refine ⟨h3, ?_⟩
      calc mx = pow10 (log10 mx) := (pow10_log10 hmx0).symm
      _ ≤ pow10 ((log10 mn + log10 mx) / 2 + 0.25) :=
        pow10_le_pow10_iff.mpr (by linarith)
    · show max DEFAULT_MIN_YEARS (pow10 ((log10 mn + log10 mx) / 2 - 0.25)) <
        min DEFAULT_MAX_YEARS (pow10 ((log10 mn + log10 mx) / 2 + 0.25))
      rw [max_lt_iff, lt_min_iff, lt_min_iff]
      refine ⟨⟨min_lt_max_years, ?_⟩, ?_, pow10_lt_pow10_iff.mpr (by linarith)⟩
      · rw [min_years_eq_pow10]
        exact pow10_lt_pow10_iff.mpr (by linarith)
      · calc pow10 ((log10 mn + log10 mx) / 2 - 0.25) <
            pow10 (log10 DEFAULT_MAX_YEARS) :=
          pow10_lt_pow10_iff.mpr (by linarith)
        _ = DEFAULT_MAX_YEARS := pow10_log10_max
  · rw [if_neg hc]
    push_neg at hc
    have hspan : 0.25 ≤ log10 mx - log10 mn := by linarith
    refine ⟨le_max_left _ _, ?_, ?_, min_le_left _ _, ?_⟩
    · show max DEFAULT_MIN_YEARS
        (pow10 (log10 mn - (log10 mx - log10 mn) * (1.5 - 1))) ≤ mn
      rw [max_le_iff]
      refine ⟨h1, ?_⟩
      calc pow10 (log10 mn - (log10 mx - log10 mn) * (1.5 - 1)) ≤
          pow10 (log10 mn) := pow10_le_pow10_iff.mpr (by linarith)
      _ = mn := pow10_log10 hmn0
    · show mx ≤ min DEFAULT_MAX_YEARS
        (pow10 (log10 mx + (log10 mx - log10 mn) * (1.5 - 1)))
      rw [le_min_iff]
      refine ⟨h3, ?_⟩
      calc mx = pow10 (log10 mx) := (pow10_log10 hmx0).symm
      _ ≤ pow10 (log10 mx + (log10 mx - log10 mn) * (1.5 - 1)) :=
        pow10_le_pow10_iff.mpr (by linarith)
    · show max DEFAULT_MIN_YEARS
          (pow10 (log10 mn - (log10 mx - log10 mn) * (1.5 - 1))) <
        min DEFAULT_MAX_YEARS
          (pow10 (log10 mx + (log10 mx - log10 mn) * (1.5 - 1)))
      rw [max_lt_iff, lt_min_iff, lt_min_iff]
      refine ⟨⟨min_lt_max_years, ?_⟩, ?_, pow10_lt_pow10_iff.mpr (by linarith)⟩
      · rw [min_years_eq_pow10]
        exact pow10_lt_pow10_iff.mpr (by linarith)
      · calc pow10 (log10 mn - (log10 mx - log10 mn) * (1.5 - 1)) <
            pow10 (log10 DEFAULT_MAX_YEARS) :=
          pow10_lt_pow10_iff.mpr (by linarith)
        _ = DEFAULT_MAX_YEARS := pow10_log10_max

/-- Witness for C5 with the cluster range `[1, 100]`. -/
theorem C5_cluster_zoom_bounds_witness :
    DEFAULT_MIN_YEARS ≤ (1:ℝ) ∧ (1:ℝ) ≤ 100 ∧ (100:ℝ) ≤ DEFAULT_MAX_YEARS ∧
    ((getClusterZoomBounds 1 100 1.5).viewStart ≤ 1 ∧
      (100:ℝ) ≤ (getClusterZoomBounds 1 100 1.5).viewEnd ∧
      (getClusterZoomBounds 1 100 1.5).viewStart <
        (getClusterZoomBounds 1 100 1.5).viewEnd) := by
  have h1 : DEFAULT_MIN_YEARS ≤ (1:ℝ) := min_years_lt_one.le
  have h2 : (1:ℝ) ≤ 100 := by norm_num
  have h3 : (100:ℝ) ≤ DEFAULT_MAX_YEARS := by norm_num [DEFAULT_MAX_YEARS]
  obtain ⟨_, hb, hcc, _, he⟩ := C5_cluster_zoom_bounds 1 100 h1 h2 h3
  exact ⟨h1, h2, h3, hb, hcc, he⟩

/-! ## Claim C8 — inverted set-window requests -/

/-- C8 counterexample: the set-window operation `handleViewChange` enforces
no minimum span.  The inverted request `(100, 50)` is clamped only to the
global bounds and comes back as the inverted window `(100, 50)`:
`start < end` does not hold afterwards. -/
theorem C8_counterexample :
    ¬ ((handleViewChange 100 50).viewStart < (handleViewChange 100 50).viewEnd) := by
  show ¬ (max DEFAULT_MIN_YEARS 100 < min DEFAULT_MAX_YEARS 50)
  rw [max_eq_right (by norm_num [DEFAULT_MIN_YEARS]),
    min_eq_right (by norm_num [DEFAULT_MAX_YEARS])]
  norm_num

/-- C8 (amended): the set-window operation never raises an error (it is a
total function) and clamps only to the global bounds — the start is floored
at the global minimum and the end ceilinged at the global maximum — but an
inverted request whose bounds already lie inside the global range stays
inverted: no minimum-span repair takes place. -/
theorem C8_set_window_clamps_only (newStart newEnd : ℝ) :
    DEFAULT_MIN_YEARS ≤ (handleViewChange newStart newEnd).viewStart ∧
    (handleViewChange newStart newEnd).viewEnd ≤ DEFAULT_MAX_YEARS ∧
    (newEnd ≤ newStart → DEFAULT_MIN_YEARS ≤ newEnd →
      newStart ≤ DEFAULT_MAX_YEARS →
      ¬ ((handleViewChange newStart newEnd).viewStart <
          (handleViewChange newStart newEnd).viewEnd)) := by
  refine ⟨le_max_left _ _, min_le_left _ _, ?_⟩
  intro h1 _ _
  show ¬ (max DEFAULT_MIN_YEARS newStart < min DEFAULT_MAX_YEARS newEnd)
  rw [not_lt]
  calc min DEFAULT_MAX_YEARS newEnd ≤ newEnd := min_le_right _ _
  _ ≤ newStart := h1
  _ ≤ max DEFAULT_MIN_YEARS newStart := le_max_right _ _

/-- Witness for C8 at the inverted request `(100, 50)`. -/
theorem C8_set_window_clamps_only_witness :
    (50:ℝ) ≤ 100 ∧ DEFAULT_MIN_YEARS ≤ (50:ℝ) ∧ (100:ℝ) ≤ DEFAULT_MAX_YEARS ∧
    DEFAULT_MIN_YEARS ≤ (handleViewChange 100 50).viewStart ∧
    ¬ ((handleViewChange 100 50).viewStart < (handleViewChange 100 50).viewEnd) := by
  have h1 : (50:ℝ) ≤ 100 := by norm_num
  have h2 : DEFAULT_MIN_YEARS ≤ (50:ℝ) := by norm_num [DEFAULT_MIN_YEARS]
  have h3 : (100:ℝ) ≤ DEFAULT_MAX_YEARS := by norm_num [DEFAULT_MAX_YEARS]
  exact ⟨h1, h2, h3, (C8_set_window_clamps_only 100 50).1,
    (C8_set_window_clamps_only 100 50).2.2 h1 h2 h3⟩

/-! ## Claim C10 — calendar years-ago values are rounded integers -/

/-- C10: `dateToYearsAgo` rounds the elapsed-years value to the nearest
integer before applying the floor at 1, so every calendar years-ago
coordinate is an integer ≥ 1; `eventToYearsAgo` routes calendar events
through `dateToYearsAgo`; and two calendar dates 0.4 mean-years apart
(less than half a year) collapse to the same coordinate, 100. -/
theorem C10_calendar_years_are_integers :
    (∀ nowMs dateMs : ℚ, ∃ n : ℤ, 1 ≤ n ∧ dateToYearsAgo nowMs dateMs = (n : ℚ)) ∧
    (∀ nowMs startMs astro : ℚ,
      eventToYearsAgo nowMs ⟨DateKind.date, startMs, astro⟩ =
        dateToYearsAgo nowMs startMs) ∧
    (|(-3155760000000 : ℚ) - (-3168383040000 : ℚ)| < msPerYear / 2 ∧
      dateToYearsAgo 0 (-3155760000000) = 100 ∧
      dateToYearsAgo 0 (-3168383040000) = 100) := by
  refine ⟨?_, ?_, ?_, ?_, ?_⟩
  · intro nowMs dateMs
    refine ⟨max 1 (round ((nowMs - dateMs) / msPerYear)), le_max_left _ _, ?_⟩
    rw [dateToYearsAgo]
    push_cast
    rfl
  · intro nowMs startMs astro
    rfl
  · norm_num [msPerYear]
  · rw [dateToYearsAgo]
    norm_num [msPerYear, round_eq]
  · rw [dateToYearsAgo]
    norm_num [msPerYear, round_eq]

/-! ## Claim C4 — cluster minimality and single-linkage chaining -/

section C4Helpers

/-- Every group emitted by the clustering loop has at least two members, is
listed in the sorted order, and is chained: each member lies within the
threshold of the immediately preceding member. -/
lemma clusterGroups_spec (t : ℚ) :
    ∀ (rest : List PosEvent) (c0 : PosEvent) (cs : List PosEvent),
      ((c0 :: cs).reverse ++ rest).Sorted byStartPos →
      ((c0 :: cs).reverse).Chain' (fun a b => |b.startPos - a.startPos| ≤ t) →
      ∀ g ∈ clusterGroups t (c0 :: cs) rest,
        2 ≤ g.length ∧ g.Sorted byStartPos ∧
          g.Chain' (fun a b => |b.startPos - a.startPos| ≤ t) := by
  intro rest
  induction rest with
  | nil =>
    intro c0 cs hsort hchain g hg
    simp only [clusterGroups] at hg
    by_cases hlen : 1 < (c0 :: cs).length
    · rw [if_pos hlen] at hg
      rcases List.mem_singleton.mp hg with rfl
      refine ⟨by simpa using hlen, ?_, hchain⟩
      simpa using hsort
    · rw [if_neg hlen] at hg
      exact absurd hg (List.not_mem_nil g)
  | cons e rest' ih =>
    intro c0 cs hsort hchain g hg
    simp only [clusterGroups] at hg
    by_cases hd : |e.startPos - (c0 :: cs).headI.startPos| ≤ t
    · rw [if_pos hd] at hg
      refine ih e (c0 :: cs) ?_ ?_ g hg
      · show ((e :: c0 :: cs).reverse ++ rest').Sorted byStartPos
        rw [List.reverse_cons, List.append_assoc]
        simpa using hsort
      · show ((e :: c0 :: cs).reverse).Chain' _
        rw [List.reverse_cons, List.chain'_append]
        refine ⟨hchain, List.chain'_singleton e, ?_⟩
        intro x hx y hy
        rw [List.getLast?_reverse] at hx
        simp only [List.head?_cons, Option.mem_def, Option.some.injEq] at hx hy
        subst hx
        subst hy
        exact hd
    · rw [if_neg hd] at hg
      rcases List.mem_append.mp hg with hg1 | hg2
      · by_cases hlen : 1 < (c0 :: cs).length
        · rw [if_pos hlen] at hg1
          rcases List.mem_singleton.mp hg1 with rfl
          refine ⟨by simpa using hlen, ?_, hchain⟩
          exact List.Pairwise.sublist (List.sublist_append_left _ _) hsort
        · rw [if_neg hlen] at hg1
          exact absurd hg1 (List.not_mem_nil g)
      · refine ih e [] ?_ ?_ g hg2
        · show (([e] : List PosEvent).reverse ++ rest').Sorted byStartPos
          have hsub : List.Sublist (e :: rest') ((c0 :: cs).reverse ++ e :: rest') :=
            List.sublist_append_right _ _
          simpa using List.Pairwise.sublist hsub hsort
        · simp only [List.reverse_singleton]
          exact List.chain'_singleton e

end C4Helpers

/-- C4: every cluster produced by `detectClusters` has at least two members,
its member list is in ascending position order, and each member after the
first lies within the threshold of the immediately preceding member
(single-linkage chaining). -/
theorem C4_cluster_invariant (events : List PosEvent) (threshold : ℚ) :
    ∀ c ∈ detectClusters events threshold, 2 ≤ c.events.length ∧
      c.events.Sorted byStartPos ∧
      c.events.Chain' (fun a b => |b.startPos - a.startPos| ≤ threshold) := by
  intro c hc
  rw [detectClusters] at hc
  rcases hs : List.insertionSort byStartPos events with _ | ⟨e, rest⟩
  · rw [hs] at hc
    exact absurd hc (List.not_mem_nil c)
  · rw [hs] at hc
    rcases List.mem_map.mp hc with ⟨g, hg, rfl⟩
    have hsorted : (([e] : List PosEvent).reverse ++ rest).Sorted byStartPos := by
      have h := List.sorted_insertionSort byStartPos events
      rw [hs] at h
      simpa using h
    have hspec := clusterGroups_spec threshold rest e [] hsorted
      (by simp only [List.reverse_singleton]; exact List.chain'_singleton e) g hg
    exact hspec

/-- Witness for C4: events at positions 10, 11, 50 with threshold 3 produce
the single two-member cluster `{10, 11}`. -/
theorem C4_cluster_invariant_witness :
    (createClusterObject [⟨1, 10, 5, 3⟩, ⟨2, 11, 6, 3⟩] ∈
      detectClusters [⟨1, 10, 5, 3⟩, ⟨2, 11, 6, 3⟩, ⟨3, 50, 7, 3⟩] 3) ∧
    2 ≤ (createClusterObject [⟨1, 10, 5, 3⟩, ⟨2, 11, 6, 3⟩]).events.length ∧
    (createClusterObject [⟨1, 10, 5, 3⟩, ⟨2, 11, 6, 3⟩]).events.Sorted byStartPos ∧
    (createClusterObject [⟨1, 10, 5, 3⟩, ⟨2, 11, 6, 3⟩]).events.Chain'
      (fun a b => |b.startPos - a.startPos| ≤ 3) := by
  have hmem : createClusterObject [⟨1, 10, 5, 3⟩, ⟨2, 11, 6, 3⟩] ∈
      detectClusters [⟨1, 10, 5, 3⟩, ⟨2, 11, 6, 3⟩, ⟨3, 50, 7, 3⟩] 3 := by
    rw [show detectClusters [⟨1, 10, 5, 3⟩, ⟨2, 11, 6, 3⟩, ⟨3, 50, 7, 3⟩] 3 =
        [createClusterObject [⟨1, 10, 5, 3⟩, ⟨2, 11, 6, 3⟩]] from by
      norm_num [detectClusters, clusterGroups, List.insertionSort,
        List.orderedInsert, byStartPos]]
    exact List.mem_singleton.mpr rfl
  have h := C4_cluster_invariant [⟨1, 10, 5, 3⟩, ⟨2, 11, 6, 3⟩, ⟨3, 50, 7, 3⟩] 3
    (createClusterObject [⟨1, 10, 5, 3⟩, ⟨2, 11, 6, 3⟩]) hmem
  exact ⟨hmem, h.1, h.2.1, h.2.2⟩

/-! ## Claim C9 — lane non-overlap (LaneLayout, modelled from the spec) -/

section C9Helpers

lemma findLane_spec (bound : ℚ) :
    ∀ (lanes : List ℚ) (k : ℕ), findLane bound lanes = some k →
      k < lanes.length ∧ lanes.getD k 0 ≤ bound := by
  intro lanes
  induction lanes with
  | nil => intro k h; simp [findLane] at h
  | cons edge edges ih =>
    intro k h
    simp only [findLane] at h
    by_cases he : edge ≤ bound
    · rw [if_pos he] at h
      injection h with h
      subst h
      exact ⟨by simp, by simpa using he⟩
    · rw [if_neg he] at h
      rcases hfe : findLane bound edges with _ | k'
      · rw [hfe] at h; simp at h
      · rw [hfe] at h
        simp only [Option.map_some'] at h
        injection h with h
        subst h
        obtain ⟨h1, h2⟩ := ih k' hfe
        exact ⟨by simpa using Nat.succ_lt_succ h1, by simpa using h2⟩

lemma getD_set_le :
    ∀ (lanes : List ℚ) (k j : ℕ) (v : ℚ),
      lanes.getD k 0 ≤ v → lanes.getD j 0 ≤ (lanes.set k v).getD j 0 := by
  intro lanes
  induction lanes with
  | nil => intro k j v _; simp
  | cons e es ih =>
    intro k j v h
    cases k with
    | zero =>
      cases j with
      | zero => simpa using h
      | succ j' => simp [List.set]
    | succ k' =>
      cases j with
      | zero => simp [List.set]
      | succ j' =>
        simp only [List.set, List.getD_cons_succ]
        exact ih k' j' v (by simpa using h)

lemma getD_set_self :
    ∀ (lanes : List ℚ) (k : ℕ) (v : ℚ), k < lanes.length →
      (lanes.set k v).getD k 0 = v := by
  intro lanes
  induction lanes with
  | nil => intro k v h; simp at h
  | cons e es ih =>
    intro k v h
    cases k with
    | zero => simp
    | succ k' =>
      simp only [List.set, List.getD_cons_succ]
      exact ih k' v (by simpa using h)

lemma getD_append_lt :
    ∀ (lanes : List ℚ) (j : ℕ) (v : ℚ), j < lanes.length →
      (lanes ++ [v]).getD j 0 = lanes.getD j 0 := by
  intro lanes
  induction lanes with
  | nil => intro j v h; simp at h
  | cons e es ih =>
    intro j v h
    cases j with
    | zero => simp
    | succ j' =>
      simp only [List.cons_append, List.getD_cons_succ]
      exact ih j' v (by simpa using h)

lemma getD_append_self :
    ∀ (lanes : List ℚ) (v : ℚ), (lanes ++ [v]).getD lanes.length 0 = v := by
  intro lanes
  induction lanes with
  | nil => intro v; simp
  | cons e es ih =>
    intro v
    simp only [List.cons_append, List.length_cons, List.getD_cons_succ]
    exact ih v

/-- Invariant of the greedy loop: every assignment to an existing lane sits
at least `padding` to the right of that lane's edge, and the output is
pairwise separated on every lane. -/
lemma assignLanesGo_spec (padding : ℚ) (hp : 0 ≤ padding) :
    ∀ (rest : List LaneItem) (lanes : List ℚ),
      (∀ it ∈ rest, it.left ≤ it.right) →
      (∀ pr ∈ assignLanesGo padding rest lanes,
          pr.2 < lanes.length → lanes.getD pr.2 0 + padding ≤ pr.1.left) ∧
        (assignLanesGo padding rest lanes).Pairwise
          (fun p q => p.2 = q.2 → p.1.right + padding ≤ q.1.left) := by
  intro rest
  induction rest with
  | nil => intro lanes _; constructor
           · intro pr hpr; simp [assignLanesGo] at hpr
           · simp [assignLanesGo]
  | cons item rest' ih =>
    intro lanes hwf
    have hitem : item.left ≤ item.right := hwf item (by simp)
    have hwf' : ∀ it ∈ rest', it.left ≤ it.right := fun it h => hwf it (by simp [h])
    simp only [assignLanesGo]
    rcases hfl : findLane (item.left - padding) lanes with _ | k
    · -- no lane fits: open a new lane at index `lanes.length`
      obtain ⟨ihA, ihB⟩ := ih (lanes ++ [item.right]) hwf'
      constructor
      · intro pr hpr hk'
        rcases List.mem_cons.mp hpr with rfl | htail
        · exact absurd hk' (lt_irrefl _)
        · have h2 := ihA pr htail
            (by rw [List.length_append]; exact Nat.lt_succ_of_lt hk')
          rw [getD_append_lt lanes pr.2 item.right hk'] at h2
          exact h2
      · rw [List.pairwise_cons]
        refine ⟨?_, ihB⟩
        intro q hq heq
        have hq' := ihA q hq (by
          rw [List.length_append, ← heq]
          simp)
        rw [← heq, getD_append_self] at hq'
        simpa using hq'
    · -- first fitting lane k: assign and raise its edge to `item.right`
      obtain ⟨hk, hedge⟩ := findLane_spec _ lanes k hfl
      have hmono : ∀ j, lanes.getD j 0 ≤ (lanes.set k item.right).getD j 0 :=
        fun j => getD_set_le lanes k j item.right (by linarith)
      obtain ⟨ihA, ihB⟩ := ih (lanes.set k item.right) hwf'
      constructor
      · intro pr hpr hk'
        rcases List.mem_cons.mp hpr with rfl | htail
        · simpa using (by linarith : lanes.getD k 0 + padding ≤ item.left)
        · have h2 := ihA pr htail (by rwa [List.length_set])
          have hm := hmono pr.2
          linarith
      · rw [List.pairwise_cons]
        refine ⟨?_, ihB⟩
        intro q hq heq
        have hq' := ihA q hq (by rw [List.length_set, ← heq]; exact hk)
        rw [← heq, getD_set_self lanes k item.right hk] at hq'
        simpa using hq'

end C9Helpers

/-- C9 (modelled from the spec, §4.4): the greedy lane layout never lets two
items in the same lane overlap by more than the configured padding — in
fact items sharing a lane are separated by at least the padding, so their
overlap is non-positive. -/
theorem C9_lane_non_overlap (overlapPadding : ℚ) (items : List LaneItem)
    (hp : 0 ≤ overlapPadding) (hwf : ∀ it ∈ items, it.left ≤ it.right) :
    (assignLanes overlapPadding items).Pairwise
      (fun p q => p.2 = q.2 → extentOverlap p.1 q.1 ≤ overlapPadding) := by
  have hwfs : ∀ it ∈ List.insertionSort laneOrder items, it.left ≤ it.right := by
    intro it hit
    exact hwf it ((List.perm_insertionSort laneOrder items).mem_iff.mp hit)
  have h := (assignLanesGo_spec overlapPadding hp
    (List.insertionSort laneOrder items) [] hwfs).2
  rw [assignLanes]
  refine h.imp ?_
  intro p q hpq heq
  have hsep := hpq heq
  rw [extentOverlap]
  calc min p.1.right q.1.right - max p.1.left q.1.left ≤
      p.1.right - q.1.left := by
        have h1 : min p.1.right q.1.right ≤ p.1.right := min_le_left _ _
        have h2 : q.1.left ≤ max p.1.left q.1.left := le_max_right _ _
        linarith
  _ ≤ -overlapPadding := by linarith
  _ ≤ overlapPadding := by linarith

/-- Witness for C9 with padding 1 and two overlapping items. -/
theorem C9_lane_non_overlap_witness :
    (0:ℚ) ≤ 1 ∧ (∀ it ∈ ([⟨1, 0, 10⟩, ⟨2, 5, 6⟩] : List LaneItem),
      it.left ≤ it.right) ∧
    (assignLanes 1 [⟨1, 0, 10⟩, ⟨2, 5, 6⟩]).Pairwise
      (fun p q => p.2 = q.2 → extentOverlap p.1 q.1 ≤ 1) := by
  have h1 : (0:ℚ) ≤ 1 := by norm_num
  have h2 : ∀ it ∈ ([⟨1, 0, 10⟩, ⟨2, 5, 6⟩] : List LaneItem),
      it.left ≤ it.right := by decide
  exact ⟨h1, h2, C9_lane_non_overlap 1 [⟨1, 0, 10⟩, ⟨2, 5, 6⟩] h1 h2⟩

end HistoryArrow
